import Mathlib

/-!
# PLAIN server handshake of libzmq (`src/plain_server.cpp`)

A shallow embedding of `zmq::plain_server_t`: the byte-level parsers
`process_hello` and `process_initiate`, the command producers, and the two
entry points `next_handshake_command` and `process_handshake_command`.

Conventions of the embedding.

* A byte (`unsigned char`) is a `Fin 256`; a buffer is a `List Byte`.
* A `const unsigned char *ptr` into a message is the list of the bytes from
  `ptr` to the end of the message: `ptr += n` is `ptr.drop n`, `*ptr` is the
  head, `std::string ((char *) ptr, n)` is `ptr.take n`.
* `size_t bytes_left` is a `Nat`; every subtraction of the source is guarded by
  the comparison right before it.
* `errno` and the objects reached through pointers (the mechanism `*this`, the
  session with its ZAP pipe) are fields of an explicit `world`.
* `zmq_assert` failing aborts the process: such functions return an `Option`,
  `none` being the abort.
* The `puts` diagnostics ("Temporary support for security debugging") write to
  the standard output only and are left out of the world.
* The parsers are embedded a second time with `ptr` as an offset and a record
  of their reads and subtractions (`process_hello_framing_traced`,
  `process_initiate_traced`), and shown to compute the same results.
* The CURVE server is not among the sources; its HELLO and INITIATE processing
  is modelled from the specification, with the cryptographic primitives as
  parameters (`curve_env_t`).
* Two helpers of the tests are embedded as well: `htonll`
  (`tests/test_security_curve.cpp`), with the endianness of the host as a
  parameter and unsigned integers as `Nat` reduced modulo `2 ^ 32` and
  `2 ^ 64`, and one pass of the mock ZAP authenticator `zap_handler_generic`
  (`tests/testutil_security.hpp`), where a `char *` is the list of the bytes
  from the pointer on and its string ends before the first NUL byte.
-/

namespace zmq

/-- An `unsigned char`. -/
abbrev Byte := Fin 256

/-- The content of a `msg_t`: `data ()` and `size ()`. -/
structure msg_t where
  data : List Byte
deriving DecidableEq, Repr

/-- The `size ()` accessor of a message. -/
def msg_t.size (m : msg_t) : Nat := m.data.length

/-- The message after `init ()`: empty. -/
def msg_t.init : msg_t := ⟨[]⟩

/-- The message after `init_size (n)`: `n` bytes, here zero until written. -/
def msg_t.init_size (n : Nat) : msg_t := ⟨List.replicate n 0⟩

/-- `memcpy (dst + off, src, n)` on the content of the destination buffer. -/
def memcpy (dst : List Byte) (off : Nat) (src : List Byte) (n : Nat) : List Byte :=
  dst.take off ++ src.take n ++ dst.drop (off + n)

/-- `memcmp (a, b, n)`: zero exactly when the first `n` bytes agree, else the
sign of the first difference. Both buffers hold `n` bytes at every call of the
source; a buffer that ends early compares as different. -/
def memcmp : List Byte → List Byte → Nat → Int
  | _, _, 0 => 0
  | a :: as, b :: bs, n + 1 =>
    if a < b then -1 else if b < a then 1 else memcmp as bs n
  | _, _, _ + 1 => 1

/-- Value of `EAGAIN` (Linux). -/
def EAGAIN : Int := 11

/-- Value of `EPROTO` (Linux). -/
def EPROTO : Int := 71

/-- The literal `"\x05HELLO"` (with its terminating NUL). -/
def HELLO_literal : List Byte := [0x05, 0x48, 0x45, 0x4C, 0x4C, 0x4F, 0x00]

/-- The literal `"\x07WELCOME"` (with its terminating NUL). -/
def WELCOME_literal : List Byte := [0x07, 0x57, 0x45, 0x4C, 0x43, 0x4F, 0x4D, 0x45, 0x00]

/-- The literal `"\x08INITIATE"` (with its terminating NUL). -/
def INITIATE_literal : List Byte :=
  [0x08, 0x49, 0x4E, 0x49, 0x54, 0x49, 0x41, 0x54, 0x45, 0x00]

/-- The literal `"\5READY"` (with its terminating NUL). -/
def READY_literal : List Byte := [0x05, 0x52, 0x45, 0x41, 0x44, 0x59, 0x00]

/-- The literal `"\5ERROR"` (with its terminating NUL). -/
def ERROR_literal : List Byte := [0x05, 0x45, 0x52, 0x52, 0x4F, 0x52, 0x00]

/-- The literal `"PLAIN"` (with its terminating NUL). -/
def PLAIN_literal : List Byte := [0x50, 0x4C, 0x41, 0x49, 0x4E, 0x00]

/-- The `c_str ()` of a `std::string`: its bytes and a terminating NUL. -/
def c_str (s : List Byte) : List Byte := s ++ [0]

/-- Modelled from the spec: the enumeration `state_t` is declared in the ZAP
client header, which is not among the sources; these are the server states of
the spec (section 4.4), all of them named in `plain_server.cpp`. -/
inductive state_t
  | waiting_for_hello
  | sending_welcome
  | waiting_for_initiate
  | sending_ready
  | sending_error
  | error_sent
  | ready
deriving DecidableEq, Repr

/-- A metadata property: name and value. -/
abbrev property_t := List Byte × List Byte

/-- Modelled from the spec: the ZAP request (section 3 and 6), frames
`[version, request-id, domain, address, identity, mechanism, credentials...]`. -/
structure zap_request_t where
  version : List Byte
  request_id : List Byte
  domain : List Byte
  address : List Byte
  identity : List Byte
  mechanism : List Byte
  credentials : List (List Byte)
deriving DecidableEq, Repr

/-- Modelled from the spec: the ZAP reply (section 3 and 6), frames
`[version, request-id, status-code, status-text, user-id, metadata-block]`. -/
structure zap_reply_t where
  version : List Byte
  request_id : List Byte
  status_code : List Byte
  status_text : List Byte
  user_id : List Byte
  metadata : List Byte
deriving DecidableEq, Repr

/-- The session as the mechanism sees it: the result `zap_connect ()` gives,
the values the ZAP request is filled with, the requests written to the ZAP
pipe so far and the replies the authenticator has queued on it. -/
structure session_base_t where
  zap_connect_rc : Int
  zap_request_id : List Byte
  zap_domain : List Byte
  peer_address : List Byte
  identity : List Byte
  zap_sent : List zap_request_t
  zap_inbox : List zap_reply_t
deriving DecidableEq, Repr

/-- The members of `plain_server_t` (inherited from the mechanism and the ZAP
client base classes) that the handshake reads or writes. -/
structure plain_server_t where
  state : state_t
  status_code : List Byte
  user_id : List Byte
  zap_properties : List property_t
  zmtp_properties : List property_t
deriving DecidableEq, Repr

/-- Everything a handshake call can read or write. `parse_metadata_calls` is a
ghost record of the buffers handed to `parse_metadata`, oldest first. -/
structure world where
  self : plain_server_t
  session : session_base_t
  errno : Int
  parse_metadata_calls : List (List Byte)
deriving DecidableEq, Repr

/-- The state the constructor (lines 40-47) hands to
`zap_client_common_handshake_t`: where a successful ZAP reply leads. -/
def zap_reply_ok_state : state_t := state_t.sending_welcome

/-- Modelled from the spec: the base-class constructor is not among the
sources; a server starts in `waiting_for_hello` (section 4.4) with nothing
captured yet. -/
def plain_server_t.new : plain_server_t :=
  { state := state_t.waiting_for_hello, status_code := [], user_id := [],
    zap_properties := [], zmtp_properties := [] }

/-- Framing checks of `process_hello` (lines 109-163): `some (username,
password)` when all of them pass, `none` at each `errno = EPROTO; return -1`. -/
def process_hello_framing (msg_ : msg_t) : Option (List Byte × List Byte) :=
  let ptr := msg_.data
  let bytes_left := msg_.size
  if bytes_left < 6 ∨ memcmp ptr HELLO_literal 6 ≠ 0 then none
  else
    let ptr := ptr.drop 6
    let bytes_left := bytes_left - 6
    if bytes_left < 1 then none
    else
      let username_length : Nat := (ptr.headD 0).val
      let ptr := ptr.drop 1
      let bytes_left := bytes_left - 1
      if bytes_left < username_length then none
      else
        let username := ptr.take username_length
        let ptr := ptr.drop username_length
        let bytes_left := bytes_left - username_length
        if bytes_left < 1 then none
        else
          let password_length : Nat := (ptr.headD 0).val
          let ptr := ptr.drop 1
          let bytes_left := bytes_left - 1
          if bytes_left < password_length then none
          else
            let password := ptr.take password_length
            let bytes_left := bytes_left - password_length
            if bytes_left > 0 then none
            else some (username, password)

/-- The cast of a length to a single byte, as in `(char) n`. -/
def byte_of_nat (n : Nat) : Byte := ⟨n % 256, Nat.mod_lt n (by decide)⟩

/-- Big-endian value of a 4-byte field (`get_uint32`). -/
def get_uint32 (b : List Byte) : Nat :=
  (b.getD 0 0).val * 16777216 + (b.getD 1 0).val * 65536
    + (b.getD 2 0).val * 256 + (b.getD 3 0).val

/-- Big-endian 4-byte field of a value (`put_uint32`). -/
def put_uint32 (v : Nat) : List Byte :=
  [byte_of_nat (v / 16777216), byte_of_nat (v / 65536), byte_of_nat (v / 256), byte_of_nat v]

/-- Modelled from the spec: the metadata encoder (section 4.1) is not among the
sources. Each property is a 1-byte name length, the name, a 4-byte big-endian
value length, the value. -/
def metadata_encode : List property_t → List Byte
  | [] => []
  | (name, value) :: rest =>
    byte_of_nat name.length :: name ++ (put_uint32 value.length ++ value)
      ++ metadata_encode rest

/-- Modelled from the spec: the metadata decoder (section 4.1) is not among the
sources. It fails when a declared length reads past the end of the buffer or a
name is empty, and is all-or-nothing. The first argument bounds the number of
properties; `metadata_decode` passes one that is never reached. -/
def metadata_decode_fuel : Nat → List Byte → Option (List property_t)
  | 0, _ => none
  | _ + 1, [] => some []
  | fuel + 1, n :: ptr =>
    let name_length : Nat := n.val
    if name_length = 0 ∨ ptr.length < name_length then none
    else
      let name := ptr.take name_length
      let ptr := ptr.drop name_length
      if ptr.length < 4 then none
      else
        let value_length := get_uint32 ptr
        let ptr := ptr.drop 4
        if ptr.length < value_length then none
        else
          let value := ptr.take value_length
          match metadata_decode_fuel fuel (ptr.drop value_length) with
          | none => none
          | some rest => some ((name, value) :: rest)

/-- Modelled from the spec: `decode (bytes) -> properties | error` of
section 4.1. -/
def metadata_decode (bytes : List Byte) : Option (List property_t) :=
  metadata_decode_fuel (bytes.length + 1) bytes

/-- Modelled from the spec: `mechanism_t::parse_metadata` is not among the
sources. It decodes the block (section 4.1); on success the properties are
kept and the result is 0, malformed metadata is a framing error (`EPROTO`,
result -1). The flag tells ZAP metadata from the peer's ZMTP metadata. -/
def parse_metadata (w : world) (ptr_ : List Byte) (length_ : Nat) (zap_flag : Bool) :
    Int × world :=
  let w := { w with parse_metadata_calls := w.parse_metadata_calls ++ [ptr_.take length_] }
  match metadata_decode (ptr_.take length_) with
  | none => (-1, { w with errno := EPROTO })
  | some props =>
    if zap_flag then (0, { w with self := { w.self with zap_properties := props } })
    else (0, { w with self := { w.self with zmtp_properties := props } })

/-- The literal `"1.0"`, the ZAP protocol version. -/
def ZAP_VERSION : List Byte := [0x31, 0x2E, 0x30]

/-- Modelled from the spec: `zap_client_t::send_zap_request` is not among the
sources. It builds a request with version `"1.0"`, the request id, the ZAP
domain, the peer address, the peer identity, the mechanism name and the
credential frames (section 4.2), and writes it to the ZAP pipe. -/
def zap_client_send_zap_request (w : world) (mechanism : List Byte) (mechanism_length : Nat)
    (credentials : List (List Byte)) (credentials_sizes : List Nat)
    (credentials_count : Nat) : world :=
  let request : zap_request_t :=
    { version := ZAP_VERSION
      request_id := w.session.zap_request_id
      domain := w.session.zap_domain
      address := w.session.peer_address
      identity := w.session.identity
      mechanism := mechanism.take mechanism_length
      credentials :=
        (List.zipWith (fun c n => c.take n) credentials credentials_sizes).take
          credentials_count }
  { w with session := { w.session with zap_sent := w.session.zap_sent ++ [request] } }

/-- The function `send_zap_request` of `plain_server_t` (lines 220-229). -/
def send_zap_request (w : world) (username password : List Byte) : world :=
  let credentials := [c_str username, c_str password]
  let credentials_sizes := [username.length, password.length]
  zap_client_send_zap_request w PLAIN_literal 5 credentials credentials_sizes 2

/-- An ASCII digit. -/
def is_digit (b : Byte) : Bool := decide (0x30 ≤ b.val) && decide (b.val ≤ 0x39)

/-- Modelled from the spec: `handle_zap_status_code` is not among the sources.
A `2xx` status leads to the state given to the constructor, `3xx`, `4xx` and
`5xx` are an authentication failure answered with an ERROR command
(section 4.2 and 4.4). -/
def handle_zap_status_code (w : world) : world :=
  if w.self.status_code.headD 0 = 0x32 then
    { w with self := { w.self with state := zap_reply_ok_state } }
  else
    { w with self := { w.self with state := state_t.sending_error } }

/-- Modelled from the spec: `receive_and_process_zap_reply` is not among the
sources. It reads one reply from the ZAP pipe, checks that the version is
`"1.0"` and that the request id is the one of the request (else a protocol
error), and maps the status: `2xx` captures user id and metadata, `3xx`/`4xx`/
`5xx` is an authentication failure whose code goes into ERROR, anything else
is a protocol error (section 4.2). With no reply on the pipe it reports 1. -/
def receive_and_process_zap_reply (w : world) : Int × world :=
  match w.session.zap_inbox with
  | [] => (1, { w with errno := EAGAIN })
  | reply :: inbox =>
    let w := { w with session := { w.session with zap_inbox := inbox } }
    if reply.version ≠ ZAP_VERSION
        ∨ (w.session.zap_sent.getLast?).map zap_request_t.request_id
            ≠ some reply.request_id then
      (-1, { w with errno := EPROTO })
    else
      match reply.status_code with
      | [d0, d1, d2] =>
        if 0x32 ≤ d0.val ∧ d0.val ≤ 0x35 ∧ is_digit d1 = true ∧ is_digit d2 = true then
          let w := { w with self := { w.self with status_code := reply.status_code } }
          if d0 = 0x32 then
            let w := { w with self := { w.self with user_id := reply.user_id } }
            let r := parse_metadata w reply.metadata reply.metadata.length true
            if r.1 ≠ 0 then (-1, r.2) else (0, handle_zap_status_code r.2)
          else (0, handle_zap_status_code w)
        else (-1, { w with errno := EPROTO })
      | _ => (-1, { w with errno := EPROTO })

/-- Modelled from the spec: `session_base_t::zap_connect` is not among the
sources; it fails when no authenticator is configured (section 4.2). The
result is the one the session holds. -/
def zap_connect (w : world) : Int × world := (w.session.zap_connect_rc, w)

/-- The function `process_hello` (lines 107-174). -/
def process_hello (w : world) (msg_ : msg_t) : Int × world :=
  match process_hello_framing msg_ with
  | none => (-1, { w with errno := EPROTO })
  | some (username, password) =>
    let r := zap_connect w
    if r.1 ≠ 0 then (-1, r.2)
    else
      let w := send_zap_request r.2 username password
      let r := receive_and_process_zap_reply w
      (if r.1 = -1 then -1 else 0, r.2)

/-- The function `produce_welcome` (lines 176-182). -/
def produce_welcome (_msg : msg_t) : Int × msg_t :=
  let msg_ := msg_t.init_size 8
  (0, ⟨memcpy msg_.data 0 WELCOME_literal 8⟩)

/-- The function `process_initiate` (lines 184-199). -/
def process_initiate (w : world) (msg_ : msg_t) : Int × world :=
  let ptr := msg_.data
  let bytes_left := msg_.size
  if bytes_left < 9 ∨ memcmp ptr INITIATE_literal 9 ≠ 0 then
    (-1, { w with errno := EPROTO })
  else
    let r := parse_metadata w (ptr.drop 9) (bytes_left - 9) false
    if r.1 = 0 then (r.1, { r.2 with self := { r.2.self with state := state_t.sending_ready } })
    else (r.1, r.2)

/-- Modelled from the spec: `make_command_with_basic_properties` is not among
the sources. The command is the prefix followed by the metadata block
(section 4.4: READY carries the negotiated metadata block; section 8: it
decodes to the properties received in INITIATE). -/
def make_command_with_basic_properties (self : plain_server_t) (pfx : List Byte)
    (pfx_len : Nat) : msg_t :=
  ⟨pfx.take pfx_len ++ metadata_encode self.zmtp_properties⟩

/-- The function `produce_ready` (lines 201-206). -/
def produce_ready (self : plain_server_t) (_msg : msg_t) : Int × msg_t :=
  (0, make_command_with_basic_properties self READY_literal 6)

/-- The function `produce_error` (lines 208-218); `none` when the assertion on
the length of the status code fails. -/
def produce_error (self : plain_server_t) (_msg : msg_t) : Option (Int × msg_t) :=
  if self.status_code.length ≠ 3 then none
  else
    let msg_ := msg_t.init_size (6 + 1 + self.status_code.length)
    let msg_data := msg_.data
    let msg_data := memcpy msg_data 0 ERROR_literal 6
    let msg_data := msg_data.set 6 (byte_of_nat self.status_code.length)
    let msg_data := memcpy msg_data 7 (c_str self.status_code) self.status_code.length
    some (0, ⟨msg_data⟩)

/-- The assignment `state = s`. -/
def set_state (w : world) (s : state_t) : world :=
  { w with self := { w.self with state := s } }

/-- The function `next_handshake_command` (lines 53-78): the result, the world
after the call and the message; `none` when an assertion aborts. -/
def next_handshake_command (w : world) (msg_ : msg_t) : Option (Int × world × msg_t) :=
  match w.self.state with
  | state_t.sending_welcome =>
    let r := produce_welcome msg_
    some (r.1, if r.1 = 0 then set_state w state_t.waiting_for_initiate else w, r.2)
  | state_t.sending_ready =>
    let r := produce_ready w.self msg_
    some (r.1, if r.1 = 0 then set_state w state_t.ready else w, r.2)
  | state_t.sending_error =>
    match produce_error w.self msg_ with
    | none => none
    | some r => some (r.1, if r.1 = 0 then set_state w state_t.error_sent else w, r.2)
  | _ => some (-1, { w with errno := EAGAIN }, msg_)

/-- The function `process_handshake_command` (lines 80-105): the result, the
world after the call and the message. -/
def process_handshake_command (w : world) (msg_ : msg_t) : Int × world × msg_t :=
  let r : Int × world :=
    match w.self.state with
    | state_t.waiting_for_hello => process_hello w msg_
    | state_t.waiting_for_initiate => process_initiate w msg_
    | _ => (-1, { w with errno := EPROTO })
  if r.1 = 0 then (0, r.2, msg_t.init) else (r.1, r.2, msg_)

/-- The HELLO command of a PLAIN client for a username and a password. -/
def hello_command (username password : List Byte) : msg_t :=
  ⟨HELLO_literal.take 6 ++ byte_of_nat username.length :: username
    ++ byte_of_nat password.length :: password⟩

/-- A session whose authenticator has queued the given replies. The request
id is `"1"`. -/
def session_base_t.new (zap_connect_rc : Int) (zap_inbox : List zap_reply_t) :
    session_base_t :=
  { zap_connect_rc := zap_connect_rc, zap_request_id := [0x31], zap_domain := [],
    peer_address := [], identity := [], zap_sent := [], zap_inbox := zap_inbox }

/-- A freshly constructed server on a session. -/
def world.new (session : session_base_t) : world :=
  { self := plain_server_t.new, session := session, errno := 0, parse_metadata_calls := [] }

/-- A ZAP reply with version `"1.0"`, request id `"1"`, the given status code
and nothing else. -/
def zap_reply_t.new (status_code : List Byte) : zap_reply_t :=
  { version := ZAP_VERSION, request_id := [0x31], status_code := status_code,
    status_text := [], user_id := [], metadata := [] }

/-- The six tag bytes `05 48 45 4C 4C 4F` of a HELLO command. -/
def HELLO_tag : List Byte := [0x05, 0x48, 0x45, 0x4C, 0x4C, 0x4F]

/-- The malformed HELLO buffers, case by case: too short for the tag or a wrong
tag, no username length byte, a username shorter than declared, no password
length byte, a password shorter than declared, bytes after the password. -/
inductive malformed_hello : List Byte → Prop
  | wrong_tag (b : List Byte) : b.length < 6 ∨ b.take 6 ≠ HELLO_tag → malformed_hello b
  | no_username_length : malformed_hello HELLO_tag
  | username_truncated (n : Byte) (rest : List Byte) : rest.length < n.val →
      malformed_hello (HELLO_tag ++ n :: rest)
  | no_password_length (u : List Byte) : u.length ≤ 255 →
      malformed_hello (HELLO_tag ++ byte_of_nat u.length :: u)
  | password_truncated (u : List Byte) (n : Byte) (rest : List Byte) : u.length ≤ 255 →
      rest.length < n.val →
      malformed_hello (HELLO_tag ++ byte_of_nat u.length :: u ++ n :: rest)
  | trailing_bytes (u p extra : List Byte) : u.length ≤ 255 → p.length ≤ 255 → extra ≠ [] →
      malformed_hello
        (HELLO_tag ++ byte_of_nat u.length :: u ++ byte_of_nat p.length :: p ++ extra)

/-- The nine tag bytes `08 49 4E 49 54 49 41 54 45` of an INITIATE command. -/
def INITIATE_tag : List Byte := [0x08, 0x49, 0x4E, 0x49, 0x54, 0x49, 0x41, 0x54, 0x45]

/-- A call the session makes on the mechanism, with the message it passes. -/
inductive call_t
  | next_handshake_command (msg_ : msg_t)
  | process_handshake_command (msg_ : msg_t)
deriving DecidableEq, Repr

/-- What one call shows to an observer: the command `next_handshake_command`
produced (result 0), a HELLO authenticated through ZAP, or nothing. -/
inductive event_t
  | command (msg_ : msg_t)
  | zap_success
  | nothing
deriving DecidableEq, Repr

/-- The call `process_handshake_command (msg_)` in world `w` is a
`process_hello` call that sent the ZAP request, read its reply, returned 0 and
got a success verdict: the status code read and stored starts with `'2'`. -/
def hello_authenticated (w : world) (msg_ : msg_t) : Bool :=
  let r := process_handshake_command w msg_
  decide (w.self.state = state_t.waiting_for_hello) && decide (r.1 = 0)
    && decide (r.2.1.session.zap_sent.length = w.session.zap_sent.length + 1)
    && (match w.session.zap_inbox with
        | [] => false
        | reply :: inbox =>
          decide (r.2.1.session.zap_inbox = inbox)
            && decide (r.2.1.self.status_code = reply.status_code)
            && decide (reply.status_code.headD 0 = 0x32))

/-- One call of the session: the world after it and what it showed; `none`
when an assertion aborts the process. -/
def step (w : world) : call_t → Option (world × event_t)
  | call_t.next_handshake_command msg_ =>
    match next_handshake_command w msg_ with
    | none => none
    | some r => some (r.2.1, if r.1 = 0 then event_t.command r.2.2 else event_t.nothing)
  | call_t.process_handshake_command msg_ =>
    some ((process_handshake_command w msg_).2.1,
      if hello_authenticated w msg_ = true then event_t.zap_success else event_t.nothing)

/-- A run of the server: the events of a sequence of calls, up to an abort. -/
def run : world → List call_t → List event_t
  | _, [] => []
  | w, c :: cs =>
    match step w c with
    | none => []
    | some r => r.2 :: run r.1 cs

/-- The message is a WELCOME or a READY command: it starts with one of the two
tags. -/
def is_welcome_or_ready (msg_ : msg_t) : Bool :=
  decide (msg_.data.take 8 = [0x07, 0x57, 0x45, 0x4C, 0x43, 0x4F, 0x4D, 0x45])
    || decide (msg_.data.take 6 = [0x05, 0x52, 0x45, 0x41, 0x44, 0x59])

/-- The documented state graph of the PLAIN server (spec section 4.4). -/
def documented_edge : state_t → state_t → Bool
  | state_t.waiting_for_hello, state_t.sending_welcome => true
  | state_t.waiting_for_hello, state_t.sending_error => true
  | state_t.sending_welcome, state_t.waiting_for_initiate => true
  | state_t.waiting_for_initiate, state_t.sending_ready => true
  | state_t.waiting_for_initiate, state_t.sending_error => true
  | state_t.sending_ready, state_t.ready => true
  | state_t.sending_error, state_t.error_sent => true
  | _, _ => false

/-- The states in which no HELLO has been authenticated: the initial state
and the two states of the failure branch. -/
def unauthenticated (s : state_t) : Bool :=
  decide (s = state_t.waiting_for_hello) || decide (s = state_t.sending_error)
    || decide (s = state_t.error_sent)

/-- A property the wire format of section 4.1 can carry: a name of 1 to 255
bytes and a value whose length fits 4 bytes. -/
def valid_property (q : property_t) : Prop :=
  1 ≤ q.1.length ∧ q.1.length ≤ 255 ∧ q.2.length < 4294967296

/-- What a parser does to memory and to `bytes_left`: the read of the `count`
bytes at `offset` of the message data, or the subtraction `bytes_left -= n`. -/
inductive access_t
  | read (offset count : Nat)
  | sub (bytes_left n : Nat)
deriving DecidableEq, Repr

/-- The access is in bounds for a message of `size` bytes: every byte read is
at an offset strictly below `size`; the unsigned subtraction does not wrap
below zero. -/
def access_t.safe (size : Nat) : access_t → Prop
  | access_t.read offset count => ∀ i, offset ≤ i → i < offset + count → i < size
  | access_t.sub bytes_left n => n ≤ bytes_left

/-- The framing checks of `process_hello` (lines 109-163) once more, with
`ptr` as an offset into the message, together with the accesses made, in
order. `memcmp` is charged with its 6 bytes, `std::string (ptr, n)` with
`n` bytes; `memcmp` is not reached when `bytes_left < 6`. -/
def process_hello_framing_traced (msg_ : msg_t) :
    Option (List Byte × List Byte) × List access_t :=
  let data := msg_.data
  let ptr := 0
  let bytes_left := msg_.size
  if bytes_left < 6 then (none, [])
  else if memcmp (data.drop ptr) HELLO_literal 6 ≠ 0 then (none, [access_t.read ptr 6])
  else
    let t := [access_t.read ptr 6, access_t.sub bytes_left 6]
    let ptr := ptr + 6
    let bytes_left := bytes_left - 6
    if bytes_left < 1 then (none, t)
    else
      let username_length : Nat := (data.getD ptr 0).val
      let t := t ++ [access_t.read ptr 1, access_t.sub bytes_left 1]
      let ptr := ptr + 1
      let bytes_left := bytes_left - 1
      if bytes_left < username_length then (none, t)
      else
        let username := (data.drop ptr).take username_length
        let t := t ++ [access_t.read ptr username_length,
          access_t.sub bytes_left username_length]
        let ptr := ptr + username_length
        let bytes_left := bytes_left - username_length
        if bytes_left < 1 then (none, t)
        else
          let password_length : Nat := (data.getD ptr 0).val
          let t := t ++ [access_t.read ptr 1, access_t.sub bytes_left 1]
          let ptr := ptr + 1
          let bytes_left := bytes_left - 1
          if bytes_left < password_length then (none, t)
          else
            let password := (data.drop ptr).take password_length
            let t := t ++ [access_t.read ptr password_length,
              access_t.sub bytes_left password_length]
            let bytes_left := bytes_left - password_length
            if bytes_left > 0 then (none, t)
            else (some (username, password), t)

/-- The function `process_initiate` (lines 184-199) once more, together with
the accesses made: the 9 bytes of `memcmp`, the subtraction `bytes_left - 9`,
and the region `(ptr + 9, bytes_left - 9)` given to `parse_metadata`, which is
all that function may read. -/
def process_initiate_traced (w : world) (msg_ : msg_t) : (Int × world) × List access_t :=
  let ptr := msg_.data
  let bytes_left := msg_.size
  if bytes_left < 9 then ((-1, { w with errno := EPROTO }), [])
  else if memcmp ptr INITIATE_literal 9 ≠ 0 then
    ((-1, { w with errno := EPROTO }), [access_t.read 0 9])
  else
    let r := parse_metadata w (ptr.drop 9) (bytes_left - 9) false
    let t := [access_t.read 0 9, access_t.sub bytes_left 9, access_t.read 9 (bytes_left - 9)]
    if r.1 = 0 then
      ((r.1, { r.2 with self := { r.2.self with state := state_t.sending_ready } }), t)
    else ((r.1, r.2), t)

/-- Modelled from the spec: the two categories a failed CURVE handshake step is
reported under (section 7), named as the monitor events the tests expect. The
CURVE server itself is not among the sources. -/
inductive handshake_failure_t
  | HANDSHAKE_FAILED_ZMTP
  | HANDSHAKE_FAILED_ENCRYPTION
deriving DecidableEq, Repr

/-- Modelled from the spec: what the CURVE server takes from outside. The
cryptographic primitives are an external library (section 1): `open_hello`
tells whether the signature block of a HELLO authenticates, `open_cookie`
opens the 96-byte cookie, `open_initiate` opens the encrypted body of INITIATE
under the keys the cookie holds and gives the client's long-term public key
and its metadata block; `none` is a decryption failure. `version` is the
version the server implements, compared with the bytes that follow the HELLO
tag; `initiate_min_size` is the minimum size of an INITIATE. -/
structure curve_env_t where
  version : List Byte
  initiate_min_size : Nat
  open_hello : List Byte → Bool
  open_cookie : List Byte → Option (List Byte)
  open_initiate : List Byte → List Byte → Option (List Byte × List Byte)

/-- Modelled from the spec: the CURVE server as far as the handshake goes: the
members it shares with the PLAIN server (state, status code, captured
properties), the session and `errno`, and the failures reported to the
monitor, oldest first, each with its `errno`. -/
structure curve_world where
  base : world
  events : List (handshake_failure_t × Int)
deriving DecidableEq, Repr

/-- The literal `"CURVE"` (with its terminating NUL). -/
def CURVE_literal : List Byte := [0x43, 0x55, 0x52, 0x56, 0x45, 0x00]

/-- Modelled from the spec: a failed step of the CURVE server: the failure is
reported under its category with `EPROTO`, and the result is -1. -/
def curve_fail (w : curve_world) (e : handshake_failure_t) : Int × curve_world :=
  (-1, { base := { w.base with errno := EPROTO }, events := w.events ++ [(e, EPROTO)] })

/-- Modelled from the spec: `process_hello` of the CURVE server (section 4.5,
step 1, and the table of section 6). A HELLO is the 6-byte tag and a fixed
194-byte payload; any other size and any version other than the implemented
one are framing errors; a signature block that does not authenticate is an
encryption failure; an accepted HELLO leads to `sending_welcome`. -/
def curve_process_hello (env : curve_env_t) (w : curve_world) (msg_ : msg_t) :
    Int × curve_world :=
  if msg_.size < 6 ∨ memcmp msg_.data HELLO_literal 6 ≠ 0 then
    curve_fail w handshake_failure_t.HANDSHAKE_FAILED_ZMTP
  else if msg_.size ≠ 200 then curve_fail w handshake_failure_t.HANDSHAKE_FAILED_ZMTP
  else if (msg_.data.drop 6).take env.version.length ≠ env.version then
    curve_fail w handshake_failure_t.HANDSHAKE_FAILED_ZMTP
  else if env.open_hello msg_.data = false then
    curve_fail w handshake_failure_t.HANDSHAKE_FAILED_ENCRYPTION
  else (0, { w with base := set_state w.base state_t.sending_welcome })

/-- Modelled from the spec: the framing checks and the decryption of
`process_initiate` of the CURVE server (section 4.5, step 3): the 9-byte tag,
the minimum size, the 96-byte cookie, then the encrypted body. The result is
the client's long-term public key with its metadata block, or the category of
the failure: framing for tag and size, encryption for cookie and body. -/
def curve_initiate_open (env : curve_env_t) (msg_ : msg_t) :
    Except handshake_failure_t (List Byte × List Byte) :=
  if msg_.size < 9 ∨ memcmp msg_.data INITIATE_literal 9 ≠ 0 then
    Except.error handshake_failure_t.HANDSHAKE_FAILED_ZMTP
  else if msg_.size < env.initiate_min_size ∨ msg_.size < 9 + 96 then
    Except.error handshake_failure_t.HANDSHAKE_FAILED_ZMTP
  else
    match env.open_cookie ((msg_.data.drop 9).take 96) with
    | none => Except.error handshake_failure_t.HANDSHAKE_FAILED_ENCRYPTION
    | some keys =>
      match env.open_initiate keys (msg_.data.drop (9 + 96)) with
      | none => Except.error handshake_failure_t.HANDSHAKE_FAILED_ENCRYPTION
      | some r => Except.ok r

/-- Modelled from the spec: reply processing of the ZAP adapter (section 4.2)
for a mechanism whose successful reply leads to `ok_state`: as
`receive_and_process_zap_reply`, except for the state after a `2xx` status. -/
def receive_and_process_zap_reply_to (ok_state : state_t) (w : world) : Int × world :=
  let r := receive_and_process_zap_reply w
  if r.1 = 0 ∧ r.2.self.status_code.headD 0 = 0x32 then (0, set_state r.2 ok_state) else r

/-- Modelled from the spec: `process_initiate` of the CURVE server (section
4.5, step 3). After the framing checks and the decryption, the client's
long-term public key is authenticated through ZAP as PLAIN does with its
credentials, the 32-byte key being the single credential frame; then the
metadata is parsed. A successful reply leads to `sending_ready`. -/
def curve_process_initiate (env : curve_env_t) (w : curve_world) (msg_ : msg_t) :
    Int × curve_world :=
  match curve_initiate_open env msg_ with
  | Except.error e => curve_fail w e
  | Except.ok (client_key, metadata) =>
    let r := zap_connect w.base
    if r.1 ≠ 0 then (-1, { w with base := r.2 })
    else
      let b := zap_client_send_zap_request r.2 CURVE_literal 5 [client_key] [32] 1
      let r := receive_and_process_zap_reply_to state_t.sending_ready b
      if r.1 = -1 then (-1, { w with base := r.2 })
      else
        let r := parse_metadata r.2 metadata metadata.length false
        if r.1 ≠ 0 then
          (r.1, { base := r.2,
                  events := w.events ++ [(handshake_failure_t.HANDSHAKE_FAILED_ZMTP, EPROTO)] })
        else (0, { w with base := r.2 })

/-- A CURVE environment for examples: version `1.0`, minimum INITIATE size
113, a HELLO block that always authenticates, and a cookie and a body that
open exactly when their first byte is zero. -/
def curve_env_t.sample : curve_env_t :=
  { version := [1, 0]
    initiate_min_size := 113
    open_hello := fun _ => true
    open_cookie := fun c => if c.headD 0 = 0 then some [] else none
    open_initiate := fun _ b => if b.headD 0 = 0 then some (List.replicate 32 0, []) else none }

/-- A fresh CURVE server on a session. -/
def curve_world.new (session : session_base_t) : curve_world :=
  { base := world.new session, events := [] }

/-! ## The test helper `htonll` of `tests/test_security_curve.cpp` -/

/-- The `n` bytes of the unsigned integer `x`, least significant byte first. -/
def bytes_le : Nat → Nat → List Byte
  | 0, _ => []
  | n + 1, x => byte_of_nat x :: bytes_le n (x / 256)

/-- The unsigned integer whose bytes, least significant first, are `bytes`. -/
def of_bytes_le : List Byte → Nat
  | [] => 0
  | b :: bs => b.val + 256 * of_bytes_le bs

/-- The object representation of an `n`-byte unsigned integer `x`, lowest
address first: least significant byte first on a little-endian host, most
significant byte first on a big-endian host. -/
def to_memory (little_endian : Bool) (n x : Nat) : List Byte :=
  if little_endian then bytes_le n x else (bytes_le n x).reverse

/-- The unsigned integer a host reads from the object representation `bytes`. -/
def from_memory (little_endian : Bool) (bytes : List Byte) : Nat :=
  if little_endian then of_bytes_le bytes else of_bytes_le bytes.reverse

/-- The system's `htonl` on a `uint32_t`, with its POSIX meaning: the result is
the value whose object representation on the host is `hostlong` in network
(big-endian) byte order. -/
def htonl (little_endian : Bool) (hostlong : Nat) : Nat :=
  from_memory little_endian (to_memory false 4 hostlong)

/-- The function `htonll` (tests/test_security_curve.cpp, lines 311-328), on a
host of the given endianness.  `uint64_t` and `uint32_t` are `Nat` reduced
modulo `2 ^ 64` and `2 ^ 32`; `*reinterpret_cast<const char *> (&num)` is the
byte at the lowest address of the `int` 42. -/
def htonll (little_endian : Bool) (value : Nat) : Nat :=
  let num : Nat := 42
  if ((to_memory little_endian 4 num).headD 0).val = num then
    let high_part := htonl little_endian ((value >>> 32) % 2 ^ 32)
    let low_part := htonl little_endian ((value &&& 0xFFFFFFFF) % 2 ^ 32)
    ((low_part <<< 32) % 2 ^ 64) ||| high_part
  else
    value

/-! ## The mock ZAP authenticator of `tests/testutil_security.hpp`

A `char *` is held as the bytes from the pointer on; the string it points to
ends before the first NUL byte. -/

/-- The enumeration `zap_protocol_t` (tests/testutil_security.hpp, lines 126-137). -/
inductive zap_protocol_t
  | zap_ok
  | zap_status_temporary_failure
  | zap_status_internal_error
  | zap_wrong_version
  | zap_wrong_request_id
  | zap_status_invalid
  | zap_too_many_parts
deriving DecidableEq, Repr

/-- The characters of the C string at `s`: the bytes before the first NUL. -/
def c_string (s : List Byte) : List Byte := s.takeWhile (fun b => b != 0)

/-- Modelled from the spec: the macro `streq` is defined in tests/testutil.hpp,
which is not among the sources. It is equality of C strings
(`strcmp (s1, s2) == 0`): it is given two `char *` and no length, and the
handler terminates its buffers with a NUL byte before it compares them. -/
def streq (s1 s2 : List Byte) : Bool := decide (c_string s1 = c_string s2)

/-- The literal `"NULL"` (with its terminating NUL). -/
def NULL_literal : List Byte := [0x4E, 0x55, 0x4C, 0x4C, 0x00]

/-- The literal `"IDENT"` (with its terminating NUL). -/
def IDENT_literal : List Byte := [0x49, 0x44, 0x45, 0x4E, 0x54, 0x00]

/-- The literal `"1.0"` (with its terminating NUL). -/
def version_1_0_literal : List Byte := [0x31, 0x2E, 0x30, 0x00]

/-- The string `test_plain_username = "testuser"` (tests/testutil_security.hpp),
with its terminating NUL. -/
def test_plain_username : List Byte := [0x74, 0x65, 0x73, 0x74, 0x75, 0x73, 0x65, 0x72, 0x00]

/-- The string `test_plain_password = "testpass"` (tests/testutil_security.hpp),
with its terminating NUL. -/
def test_plain_password : List Byte := [0x74, 0x65, 0x73, 0x74, 0x70, 0x61, 0x73, 0x73, 0x00]

/-- The literal `"invalid_version"` (with its terminating NUL). -/
def invalid_version_literal : List Byte :=
  [0x69, 0x6E, 0x76, 0x61, 0x6C, 0x69, 0x64, 0x5F, 0x76, 0x65, 0x72, 0x73, 0x69, 0x6F, 0x6E, 0x00]

/-- The literal `"invalid_request_id"` (with its terminating NUL). -/
def invalid_request_id_literal : List Byte :=
  [0x69, 0x6E, 0x76, 0x61, 0x6C, 0x69, 0x64, 0x5F, 0x72,
    0x65, 0x71, 0x75, 0x65, 0x73, 0x74, 0x5F, 0x69, 0x64, 0x00]

/-- The literal `"500"` (with its terminating NUL). -/
def status_500_literal : List Byte := [0x35, 0x30, 0x30, 0x00]

/-- The literal `"300"` (with its terminating NUL). -/
def status_300_literal : List Byte := [0x33, 0x30, 0x30, 0x00]

/-- The literal `"invalid_status"` (with its terminating NUL). -/
def invalid_status_literal : List Byte :=
  [0x69, 0x6E, 0x76, 0x61, 0x6C, 0x69, 0x64, 0x5F, 0x73, 0x74, 0x61, 0x74, 0x75, 0x73, 0x00]

/-- The literal `"200"` (with its terminating NUL). -/
def status_200_literal : List Byte := [0x32, 0x30, 0x30, 0x00]

/-- The literal `"OK"` (with its terminating NUL). -/
def OK_literal : List Byte := [0x4F, 0x4B, 0x00]

/-- The literal `"anonymous"` (with its terminating NUL). -/
def anonymous_literal : List Byte := [0x61, 0x6E, 0x6F, 0x6E, 0x79, 0x6D, 0x6F, 0x75, 0x73, 0x00]

/-- The literal `"400"` (with its terminating NUL). -/
def status_400_literal : List Byte := [0x34, 0x30, 0x30, 0x00]

/-- The literal `"Invalid client public key"` (with its terminating NUL). -/
def invalid_client_public_key_literal : List Byte :=
  [0x49, 0x6E, 0x76, 0x61, 0x6C, 0x69, 0x64, 0x20, 0x63, 0x6C, 0x69, 0x65, 0x6E,
    0x74, 0x20, 0x70, 0x75, 0x62, 0x6C, 0x69, 0x63, 0x20, 0x6B, 0x65, 0x79, 0x00]

/-- The literal `""` (with its terminating NUL). -/
def empty_literal : List Byte := [0x00]

/-- What the handler takes from outside the sources: the library function
`zmq_z85_encode` (the 41 bytes it writes for a 32-byte key) and the array
`valid_client_public`, which is filled with a fresh key pair when the tests
start. -/
structure zap_handler_env_t where
  zmq_z85_encode : List Byte → List Byte
  valid_client_public : List Byte

/-- The value of `authentication_succeeded` after lines 189-226 of
`zap_handler_generic`, or `none` when an assertion stops the handler there.
`zmq_recv (handler, buf, 32, 0)` takes the next frame of the request and
returns its size (`-1` when there is none); `client_username [size] = 0` is a
write into a `char [32]`, so a frame of 32 bytes or more has no defined
outcome and gives `none` as well. -/
def zap_handler_authentication (env : zap_handler_env_t) (mechanism : List Byte)
    (credentials : List (List Byte)) : Option Bool :=
  if streq mechanism CURVE_literal then
    match credentials with
    | client_key :: _ =>
      if client_key.length ≠ 32 then none
      else
        let client_key_text := env.zmq_z85_encode client_key
        some (streq client_key_text env.valid_client_public)
    | [] => none
  else if streq mechanism PLAIN_literal then
    match credentials with
    | username :: password :: _ =>
      if ¬ 0 < username.length then none
      else if ¬ username.length < 32 then none
      else
        let client_username := username ++ [0]
        if ¬ 0 < password.length then none
        else if ¬ password.length < 32 then none
        else
          let client_password := password ++ [0]
          some (streq test_plain_username client_username
            && streq test_plain_password client_password)
    | _ => none
  else if streq mechanism NULL_literal then
    some true
  else
    none

/-- One pass of the loop of `zap_handler_generic` (tests/testutil_security.hpp,
lines 182-261) on one request: the frames of the reply, in the order they are
sent, or `none` when an assertion stops the handler. The first six fields of
`request` are the strings `s_recv` returned (each followed here by its NUL),
`credentials` are the frames left for `zmq_recv`; `s_sendmore` and `s_send`
send the characters of a C string as one frame. -/
def zap_handler_generic (env : zap_handler_env_t) (zap_protocol : zap_protocol_t)
    (expected_identity : List Byte) (request : zap_request_t) : Option (List (List Byte)) :=
  let version := c_str request.version
  let sequence := c_str request.request_id
  let identity := c_str request.identity
  let mechanism := c_str request.mechanism
  match zap_handler_authentication env mechanism request.credentials with
  | none => none
  | some authentication_succeeded =>
    if ¬ streq version version_1_0_literal then none
    else if ¬ streq identity expected_identity then none
    else
      let sent :=
        [c_string (if zap_protocol = zap_protocol_t.zap_wrong_version
            then invalid_version_literal else version),
          c_string (if zap_protocol = zap_protocol_t.zap_wrong_request_id
            then invalid_request_id_literal else sequence)]
      if authentication_succeeded then
        let status_code :=
          match zap_protocol with
          | zap_protocol_t.zap_status_internal_error => status_500_literal
          | zap_protocol_t.zap_status_temporary_failure => status_300_literal
          | zap_protocol_t.zap_status_invalid => invalid_status_literal
          | _ => status_200_literal
        let sent := sent ++ [c_string status_code, c_string OK_literal,
          c_string anonymous_literal]
        let sent :=
          if zap_protocol = zap_protocol_t.zap_too_many_parts then
            sent ++ [c_string empty_literal]
          else sent
        some (sent ++ [c_string empty_literal])
      else
        some (sent ++ [c_string status_400_literal,
          c_string invalid_client_public_key_literal, c_string empty_literal,
          c_string empty_literal])

/-- A handler environment for examples: an encoder that writes only the NUL
and an empty `valid_client_public`. -/
def zap_handler_env_t.sample : zap_handler_env_t :=
  { zmq_z85_encode := fun _ => [0], valid_client_public := [0] }

/-- A PLAIN request as the PLAIN server sends it: version `"1.0"`, request id
`"1"`, identity `"IDENT"`, and the two credential frames. -/
def zap_request_t.plain (username password : List Byte) : zap_request_t :=
  { version := ZAP_VERSION, request_id := [0x31], domain := [], address := [],
    identity := c_string IDENT_literal, mechanism := c_string PLAIN_literal,
    credentials := [username, password] }

/-! ## Helper lemmas -/

theorem memcmp_eq_zero_iff : ∀ (n : Nat) (a b : List Byte), n ≤ a.length → n ≤ b.length →
    (memcmp a b n = 0 ↔ a.take n = b.take n) := by
  intro n
  induction n with
  | zero => intro a b _ _; simp [memcmp]
  | succ n ih =>
    intro a b ha hb
    cases a with
    | nil => simp at ha
    | cons x xs =>
      cases b with
      | nil => simp at hb
      | cons y ys =>
        simp only [List.length_cons, Nat.add_le_add_iff_right] at ha hb
        simp only [memcmp, List.take_succ_cons, List.cons.injEq]
        by_cases h1 : x < y
        · have : x ≠ y := ne_of_lt h1
          simp [h1, this]
        · by_cases h2 : y < x
          · have : x ≠ y := (ne_of_lt h2).symm
            simp [h1, h2, this]
          · have hxy : x = y := le_antisymm (not_lt.mp h2) (not_lt.mp h1)
            simp [h1, hxy, ih xs ys ha hb]

theorem byte_of_nat_val (n : Nat) (h : n ≤ 255) : (byte_of_nat n).val = n := by
  simp only [byte_of_nat]
  omega

theorem process_hello_framing_hello_command (u p : List Byte) (hu : u.length ≤ 255)
    (hp : p.length ≤ 255) : process_hello_framing (hello_command u p) = some (u, p) := by
  have hm : memcmp (hello_command u p).data HELLO_literal 6 = 0 := by
    rw [memcmp_eq_zero_iff 6 _ _ (by simp [hello_command, HELLO_literal])
      (by simp [HELLO_literal])]
    simp [hello_command, HELLO_literal]
  unfold process_hello_framing
  simp only [hm]
  simp [hello_command, msg_t.size, HELLO_literal, byte_of_nat_val _ hu, byte_of_nat_val _ hp]

theorem memcmp_HELLO_tag_append (rest : List Byte) :
    memcmp (HELLO_tag ++ rest) HELLO_literal 6 = 0 := by
  rw [memcmp_eq_zero_iff 6 _ _ (by simp [HELLO_tag]) (by simp [HELLO_literal])]
  simp [HELLO_tag, HELLO_literal]

theorem process_hello_framing_malformed (b : List Byte) (h : malformed_hello b) :
    process_hello_framing ⟨b⟩ = none := by
  cases h with
  | wrong_tag _ h =>
    unfold process_hello_framing
    by_cases hlen : b.length < 6
    · simp [msg_t.size, hlen]
    · have hne : b.take 6 ≠ HELLO_tag := by
        rcases h with h | h
        · exact absurd h hlen
        · exact h
      have hm : memcmp b HELLO_literal 6 ≠ 0 := by
        rw [Ne, memcmp_eq_zero_iff 6 _ _ (by omega) (by simp [HELLO_literal])]
        simpa [HELLO_tag, HELLO_literal] using hne
      simp [hm]
  | no_username_length =>
    simp [process_hello_framing, msg_t.size, HELLO_tag]
  | username_truncated n rest h =>
    unfold process_hello_framing
    simp only [memcmp_HELLO_tag_append]
    simp [msg_t.size, HELLO_tag, h]
  | no_password_length u hu =>
    unfold process_hello_framing
    simp only [memcmp_HELLO_tag_append]
    simp [msg_t.size, HELLO_tag, byte_of_nat_val _ hu]
  | password_truncated u n rest hu h =>
    unfold process_hello_framing
    simp only [memcmp_HELLO_tag_append]
    simp [msg_t.size, HELLO_tag, byte_of_nat_val _ hu, h]
  | trailing_bytes u p extra hu hp hne =>
    unfold process_hello_framing
    simp only [List.append_assoc, memcmp_HELLO_tag_append]
    simp [msg_t.size, HELLO_tag, byte_of_nat_val _ hu, byte_of_nat_val _ hp, hne]

theorem byte_of_nat_fin_val (n : Byte) : byte_of_nat n.val = n := by
  apply Fin.ext
  simp only [byte_of_nat]
  omega

theorem process_hello_framing_none_malformed (b : List Byte)
    (h : process_hello_framing ⟨b⟩ = none) : malformed_hello b := by
  by_cases h6 : b.length < 6
  · exact malformed_hello.wrong_tag b (Or.inl h6)
  by_cases htag : b.take 6 = HELLO_tag
  swap
  · exact malformed_hello.wrong_tag b (Or.inr htag)
  have hb : b = HELLO_tag ++ b.drop 6 := by
    rw [← htag, List.take_append_drop]
  generalize b.drop 6 = r at hb
  subst hb
  cases r with
  | nil => simpa using malformed_hello.no_username_length
  | cons n r1 =>
    by_cases hu : r1.length < n.val
    · exact malformed_hello.username_truncated n r1 hu
    have hr1 : r1 = r1.take n.val ++ r1.drop n.val := (List.take_append_drop _ _).symm
    have hul : (r1.take n.val).length = n.val := by
      rw [List.length_take]; omega
    have hn : byte_of_nat (r1.take n.val).length = n := by
      rw [hul]; exact byte_of_nat_fin_val n
    have hu255 : (r1.take n.val).length ≤ 255 := by
      rw [hul]; omega
    generalize hue : r1.take n.val = u at hr1 hul hn hu255
    generalize hr2e : r1.drop n.val = r2 at hr1
    cases r2 with
    | nil =>
      have := malformed_hello.no_password_length u hu255
      rw [hn] at this
      rw [hr1]
      simpa using this
    | cons m r3 =>
      by_cases hp : r3.length < m.val
      · have := malformed_hello.password_truncated u m r3 hu255 hp
        rw [hn] at this
        rw [hr1]
        simpa using this
      have hr3 : r3 = r3.take m.val ++ r3.drop m.val := (List.take_append_drop _ _).symm
      have hpl : (r3.take m.val).length = m.val := by
        rw [List.length_take]; omega
      have hm : byte_of_nat (r3.take m.val).length = m := by
        rw [hpl]; exact byte_of_nat_fin_val m
      have hp255 : (r3.take m.val).length ≤ 255 := by
        rw [hpl]; omega
      by_cases hex : r3.drop m.val = []
      · exfalso
        have hlen3 : r3.length = m.val := by
          have := congrArg List.length hex
          simp only [List.length_drop, List.length_nil] at this
          omega
        have hlen1 : r1.length = n.val + 1 + m.val := by
          have := congrArg List.length hr1
          simp only [List.length_append, List.length_cons] at this
          omega
        have hsome : process_hello_framing ⟨HELLO_tag ++ n :: r1⟩
            = some (r1.take n.val, r3.take m.val) := by
          unfold process_hello_framing
          simp only [memcmp_HELLO_tag_append]
          simp [msg_t.size, HELLO_tag, hlen1, hr2e, hlen3]
          omega
        rw [hsome] at h
        exact Option.noConfusion h
      · have := malformed_hello.trailing_bytes u (r3.take m.val) (r3.drop m.val) hu255 hp255 hex
        rw [hn, hm] at this
        rw [hr1, hr3]
        simpa using this

theorem process_hello_framing_eq_none_iff (b : List Byte) :
    process_hello_framing ⟨b⟩ = none ↔ malformed_hello b :=
  ⟨process_hello_framing_none_malformed b, process_hello_framing_malformed b⟩

theorem receive_and_process_zap_reply_zap_sent (w : world) :
    (receive_and_process_zap_reply w).2.session.zap_sent = w.session.zap_sent := by
  unfold receive_and_process_zap_reply
  split
  · rfl
  · simp only [parse_metadata, handle_zap_status_code]
    repeat (any_goals split)
    all_goals rfl

theorem take_length_c_str (s : List Byte) : (c_str s).take s.length = s := by
  simp [c_str]

theorem memcmp_INITIATE_iff (b : List Byte) (h : 9 ≤ b.length) :
    memcmp b INITIATE_literal 9 = 0 ↔ b.take 9 = INITIATE_tag := by
  rw [memcmp_eq_zero_iff 9 _ _ h (by simp [INITIATE_literal])]
  simp [INITIATE_tag, INITIATE_literal]

/-! ## The claims -/



/-- C1: HELLO parse round trip. For every username `u` and password `p` of at
most 255 bytes each, the buffer `"\x05HELLO" ++ [len u] ++ u ++ [len p] ++ p`
passes every framing check of `process_hello` with exactly the pair `(u, p)`,
and once `zap_connect` has succeeded `process_hello` is the ZAP exchange run
on `send_zap_request (u, p)`. -/
theorem process_hello_round_trip (u p : List Byte) (w : world) (hu : u.length ≤ 255)
    (hp : p.length ≤ 255) (hc : w.session.zap_connect_rc = 0) :
    (hello_command u p).data
        = [0x05, 0x48, 0x45, 0x4C, 0x4C, 0x4F] ++ [byte_of_nat u.length] ++ u
            ++ [byte_of_nat p.length] ++ p
      ∧ process_hello_framing (hello_command u p) = some (u, p)
      ∧ process_hello w (hello_command u p)
          = ((if (receive_and_process_zap_reply (send_zap_request w u p)).1 = -1 then -1
              else 0),
             (receive_and_process_zap_reply (send_zap_request w u p)).2) := by
  refine ⟨by simp [hello_command, HELLO_literal], ?_, ?_⟩
  · exact process_hello_framing_hello_command u p hu hp
  · simp [process_hello, process_hello_framing_hello_command u p hu hp, zap_connect, hc]

/-- Witness of C1: the 8-byte HELLO with two zero length bytes yields two empty
strings. -/
theorem process_hello_round_trip_witness :
    (hello_command [] []).data = [0x05, 0x48, 0x45, 0x4C, 0x4C, 0x4F, 0, 0]
      ∧ process_hello_framing ⟨[0x05, 0x48, 0x45, 0x4C, 0x4C, 0x4F, 0, 0]⟩ = some ([], [])
      ∧ process_hello (world.new (session_base_t.new 0 [zap_reply_t.new [0x32, 0x30, 0x30]]))
          (hello_command [] [])
          = ((if (receive_and_process_zap_reply (send_zap_request
                (world.new (session_base_t.new 0 [zap_reply_t.new [0x32, 0x30, 0x30]]))
                [] [])).1 = -1 then -1 else 0),
             (receive_and_process_zap_reply (send_zap_request
                (world.new (session_base_t.new 0 [zap_reply_t.new [0x32, 0x30, 0x30]]))
                [] [])).2) :=
  process_hello_round_trip [] []
    (world.new (session_base_t.new 0 [zap_reply_t.new [0x32, 0x30, 0x30]]))
    (by decide) (by decide) (by decide)

/-- C2: for every malformed HELLO buffer `process_hello` returns -1 with
`errno = EPROTO`, and the mechanism, the session and its ZAP pipe are as before
the call. -/
theorem process_hello_malformed (w : world) (msg_ : msg_t) (h : malformed_hello msg_.data) :
    (process_hello w msg_).1 = -1
      ∧ (process_hello w msg_).2.errno = EPROTO
      ∧ (process_hello w msg_).2.self = w.self
      ∧ (process_hello w msg_).2.session = w.session := by
  have hf : process_hello_framing msg_ = none := process_hello_framing_malformed msg_.data h
  simp [process_hello, hf]

/-- Witness of C2: a HELLO with empty username and password followed by one
extra byte. -/
theorem process_hello_malformed_witness :
    malformed_hello (msg_t.mk [0x05, 0x48, 0x45, 0x4C, 0x4C, 0x4F, 0, 0, 1]).data
      ∧ (process_hello (world.new (session_base_t.new 0 []))
          ⟨[0x05, 0x48, 0x45, 0x4C, 0x4C, 0x4F, 0, 0, 1]⟩).1 = -1
      ∧ (process_hello (world.new (session_base_t.new 0 []))
          ⟨[0x05, 0x48, 0x45, 0x4C, 0x4C, 0x4F, 0, 0, 1]⟩).2.errno = EPROTO
      ∧ (process_hello (world.new (session_base_t.new 0 []))
          ⟨[0x05, 0x48, 0x45, 0x4C, 0x4C, 0x4F, 0, 0, 1]⟩).2.self
          = (world.new (session_base_t.new 0 [])).self
      ∧ (process_hello (world.new (session_base_t.new 0 []))
          ⟨[0x05, 0x48, 0x45, 0x4C, 0x4C, 0x4F, 0, 0, 1]⟩).2.session
          = (world.new (session_base_t.new 0 [])).session :=
  have h : malformed_hello (msg_t.mk [0x05, 0x48, 0x45, 0x4C, 0x4C, 0x4F, 0, 0, 1]).data :=
    malformed_hello.trailing_bytes [] [] [1] (by decide) (by decide) (by decide)
  ⟨h, process_hello_malformed (world.new (session_base_t.new 0 [])) _ h⟩

/-- Counterexample to C3 as stated: on a fresh server, the well-formed HELLO of
user `"a"` with password `"b"` and a ZAP reply with status `"200"` leave the
state `sending_welcome`, not `sending_ready`. -/
theorem process_hello_200_not_sending_ready :
    process_hello_framing (hello_command [0x61] [0x62]) = some ([0x61], [0x62])
      ∧ (process_hello (world.new (session_base_t.new 0 [zap_reply_t.new [0x32, 0x30, 0x30]]))
          (hello_command [0x61] [0x62])).1 = 0
      ∧ (process_hello (world.new (session_base_t.new 0 [zap_reply_t.new [0x32, 0x30, 0x30]]))
          (hello_command [0x61] [0x62])).2.self.state = state_t.sending_welcome
      ∧ (process_hello (world.new (session_base_t.new 0 [zap_reply_t.new [0x32, 0x30, 0x30]]))
          (hello_command [0x61] [0x62])).2.self.state ≠ state_t.sending_ready := by
  decide

/-- C3, amended: for every HELLO that passes the framing checks, when
`zap_connect` succeeds and the ZAP reply has version `"1.0"`, the request id of
the request, status `"200"` and a metadata block that decodes, `process_hello`
returns 0 and the state after it is `sending_welcome`, the state the
constructor names for a successful ZAP reply. -/
theorem process_hello_200_sending_welcome (w : world) (msg_ : msg_t) (u p : List Byte)
    (reply : zap_reply_t) (inbox : List zap_reply_t) (props : List property_t)
    (hf : process_hello_framing msg_ = some (u, p))
    (hc : w.session.zap_connect_rc = 0)
    (hi : w.session.zap_inbox = reply :: inbox)
    (hv : reply.version = ZAP_VERSION)
    (hid : reply.request_id = w.session.zap_request_id)
    (hs : reply.status_code = [0x32, 0x30, 0x30])
    (hm : metadata_decode reply.metadata = some props) :
    (process_hello w msg_).1 = 0
      ∧ (process_hello w msg_).2.self.state = state_t.sending_welcome := by
  have h50 : ((50 : Byte) : Nat) = 50 := rfl
  have h48 : ((48 : Byte) : Nat) = 48 := rfl
  simp [process_hello, hf, zap_connect, hc, send_zap_request, zap_client_send_zap_request,
    receive_and_process_zap_reply, hi, hv, hid, hs, is_digit, parse_metadata, hm,
    handle_zap_status_code, zap_reply_ok_state, h50, h48]

/-- Witness of C3, amended. -/
theorem process_hello_200_sending_welcome_witness :
    (process_hello (world.new (session_base_t.new 0 [zap_reply_t.new [0x32, 0x30, 0x30]]))
        (hello_command [0x61] [0x62])).1 = 0
      ∧ (process_hello (world.new (session_base_t.new 0 [zap_reply_t.new [0x32, 0x30, 0x30]]))
        (hello_command [0x61] [0x62])).2.self.state = state_t.sending_welcome :=
  process_hello_200_sending_welcome
    (world.new (session_base_t.new 0 [zap_reply_t.new [0x32, 0x30, 0x30]]))
    (hello_command [0x61] [0x62]) [0x61] [0x62] (zap_reply_t.new [0x32, 0x30, 0x30]) [] []
    (by decide) (by decide) (by decide) (by decide) (by decide) (by decide) (by decide)

/-- C4: for every HELLO that passes the framing checks, when `zap_connect`
returns non-zero `process_hello` returns -1, no ZAP request is sent, no ZAP
reply is read and the mechanism is unchanged; `process_handshake_command` in
state `waiting_for_hello` then returns -1 as well and keeps the message. -/
theorem process_hello_zap_connect_fails (w : world) (msg_ : msg_t) (u p : List Byte)
    (hf : process_hello_framing msg_ = some (u, p))
    (hc : w.session.zap_connect_rc ≠ 0) :
    (process_hello w msg_).1 = -1
      ∧ (process_hello w msg_).2.session.zap_sent = w.session.zap_sent
      ∧ (process_hello w msg_).2.session.zap_inbox = w.session.zap_inbox
      ∧ (process_hello w msg_).2.self = w.self
      ∧ (w.self.state = state_t.waiting_for_hello →
          (process_handshake_command w msg_).1 = -1
            ∧ (process_handshake_command w msg_).2.1.self = w.self
            ∧ (process_handshake_command w msg_).2.2 = msg_) := by
  have h : process_hello w msg_ = (-1, w) := by
    simp [process_hello, hf, zap_connect, hc]
  refine ⟨by rw [h], by rw [h], by rw [h], by rw [h], ?_⟩
  intro hs
  simp [process_handshake_command, hs, h]

/-- Witness of C4: a fresh server without authenticator receives the HELLO of
user `"a"` with password `"b"`. -/
theorem process_hello_zap_connect_fails_witness :
    (process_hello (world.new (session_base_t.new (-1) [])) (hello_command [0x61] [0x62])).1
        = -1
      ∧ (process_hello (world.new (session_base_t.new (-1) []))
          (hello_command [0x61] [0x62])).2.session.zap_sent = []
      ∧ (process_hello (world.new (session_base_t.new (-1) []))
          (hello_command [0x61] [0x62])).2.self = plain_server_t.new
      ∧ (process_handshake_command (world.new (session_base_t.new (-1) []))
          (hello_command [0x61] [0x62])).1 = -1 :=
  have h := process_hello_zap_connect_fails (world.new (session_base_t.new (-1) []))
    (hello_command [0x61] [0x62]) [0x61] [0x62] (by decide) (by decide)
  ⟨h.1, h.2.1, h.2.2.2.1, (h.2.2.2.2 (by decide)).1⟩

/-- Counterexample to C5 as stated: a fresh server without authenticator
receives the well-formed HELLO of user `"a"` with password `"b"`; the state
stays `waiting_for_hello` instead of becoming `sending_error`, and the next
`next_handshake_command` returns -1 with `EAGAIN` and leaves the message empty:
no ERROR command. -/
theorem zap_connect_fails_no_error_command :
    process_hello_framing (hello_command [0x61] [0x62]) = some ([0x61], [0x62])
      ∧ (process_hello (world.new (session_base_t.new (-1) []))
          (hello_command [0x61] [0x62])).1 = -1
      ∧ (process_hello (world.new (session_base_t.new (-1) []))
          (hello_command [0x61] [0x62])).2.self.state = state_t.waiting_for_hello
      ∧ (process_hello (world.new (session_base_t.new (-1) []))
          (hello_command [0x61] [0x62])).2.self.state ≠ state_t.sending_error
      ∧ next_handshake_command
          (process_hello (world.new (session_base_t.new (-1) []))
            (hello_command [0x61] [0x62])).2 msg_t.init
          = some (-1, { world.new (session_base_t.new (-1) []) with errno := EAGAIN },
              msg_t.init) := by
  decide

/-- C5, amended: when `zap_connect` fails while a server in state
`waiting_for_hello` processes a HELLO that passes the framing checks,
`process_hello` returns -1, the state stays `waiting_for_hello`, and the next
`next_handshake_command` returns -1 with `errno = EAGAIN` and writes no
command: the failure is reported through the return value, not through an
ERROR command. -/
theorem zap_connect_fails_then_nothing_to_send (w : world) (msg_ out : msg_t)
    (u p : List Byte)
    (hf : process_hello_framing msg_ = some (u, p))
    (hc : w.session.zap_connect_rc ≠ 0)
    (hs : w.self.state = state_t.waiting_for_hello) :
    (process_hello w msg_).1 = -1
      ∧ (process_hello w msg_).2.self.state = state_t.waiting_for_hello
      ∧ next_handshake_command (process_hello w msg_).2 out
          = some (-1, { w with errno := EAGAIN }, out) := by
  have h : process_hello w msg_ = (-1, w) := by
    simp [process_hello, hf, zap_connect, hc]
  simp [h, hs, next_handshake_command]

/-- Witness of C5, amended. -/
theorem zap_connect_fails_then_nothing_to_send_witness :
    (process_hello (world.new (session_base_t.new (-1) [])) (hello_command [0x61] [0x62])).1
        = -1
      ∧ (process_hello (world.new (session_base_t.new (-1) []))
          (hello_command [0x61] [0x62])).2.self.state = state_t.waiting_for_hello
      ∧ next_handshake_command
          (process_hello (world.new (session_base_t.new (-1) []))
            (hello_command [0x61] [0x62])).2 msg_t.init
          = some (-1, { world.new (session_base_t.new (-1) []) with errno := EAGAIN },
              msg_t.init) :=
  zap_connect_fails_then_nothing_to_send (world.new (session_base_t.new (-1) []))
    (hello_command [0x61] [0x62]) msg_t.init [0x61] [0x62] (by decide) (by decide)
    (by decide)

/-- C6: for every accepted HELLO carrying username `u` and password `p`, the
call made is `zap_client_t::send_zap_request ("PLAIN", 5, credentials,
credentials_sizes, 2)` with the `c_str ()` of `u` and `p` and their sizes, and
the ZAP request written names the mechanism as the 5 bytes `PLAIN` and carries
exactly the two credential frames `u` and `p`, in this order, of sizes `len u`
and `len p`. -/
theorem process_hello_zap_request (w : world) (msg_ : msg_t) (u p : List Byte)
    (hf : process_hello_framing msg_ = some (u, p))
    (hc : w.session.zap_connect_rc = 0) :
    send_zap_request w u p
        = zap_client_send_zap_request w PLAIN_literal 5 [c_str u, c_str p]
            [u.length, p.length] 2
      ∧ (process_hello w msg_).2.session.zap_sent
        = w.session.zap_sent ++
            [{ version := ZAP_VERSION
               request_id := w.session.zap_request_id
               domain := w.session.zap_domain
               address := w.session.peer_address
               identity := w.session.identity
               mechanism := [0x50, 0x4C, 0x41, 0x49, 0x4E]
               credentials := [u, p] }] := by
  refine ⟨rfl, ?_⟩
  simp only [process_hello, hf, zap_connect, hc, ne_eq, not_true_eq_false, if_false,
    receive_and_process_zap_reply_zap_sent]
  simp [send_zap_request, zap_client_send_zap_request, take_length_c_str, PLAIN_literal]

/-- Witness of C6: the HELLO of user `"a"` with password `"b"` on a fresh
server with an authenticator. -/
theorem process_hello_zap_request_witness :
    (process_hello (world.new (session_base_t.new 0 [zap_reply_t.new [0x32, 0x30, 0x30]]))
        (hello_command [0x61] [0x62])).2.session.zap_sent
      = [{ version := ZAP_VERSION
           request_id := [0x31]
           domain := []
           address := []
           identity := []
           mechanism := [0x50, 0x4C, 0x41, 0x49, 0x4E]
           credentials := [[0x61], [0x62]] }] :=
  (process_hello_zap_request
    (world.new (session_base_t.new 0 [zap_reply_t.new [0x32, 0x30, 0x30]]))
    (hello_command [0x61] [0x62]) [0x61] [0x62] (by decide) (by decide)).2

/-- C7: in state `sending_welcome`, `next_handshake_command` returns 0, the
command is exactly the 8 bytes `07 'W' 'E' 'L' 'C' 'O' 'M' 'E'` with no
payload, and the state becomes `waiting_for_initiate`; nothing else changes. -/
theorem next_handshake_command_welcome (w : world) (msg_ : msg_t)
    (hs : w.self.state = state_t.sending_welcome) :
    next_handshake_command w msg_
      = some (0, set_state w state_t.waiting_for_initiate,
          ⟨[0x07, 0x57, 0x45, 0x4C, 0x43, 0x4F, 0x4D, 0x45]⟩)
      ∧ (set_state w state_t.waiting_for_initiate).self.state = state_t.waiting_for_initiate
      ∧ (msg_t.mk [0x07, 0x57, 0x45, 0x4C, 0x43, 0x4F, 0x4D, 0x45]).size = 8 := by
  refine ⟨?_, rfl, rfl⟩
  simp [next_handshake_command, hs, produce_welcome, msg_t.init_size, memcpy,
    WELCOME_literal, List.replicate]

/-- Witness of C7: a server put in state `sending_welcome`. -/
theorem next_handshake_command_welcome_witness :
    next_handshake_command
        (set_state (world.new (session_base_t.new 0 [])) state_t.sending_welcome) msg_t.init
      = some (0,
          set_state (set_state (world.new (session_base_t.new 0 [])) state_t.sending_welcome)
            state_t.waiting_for_initiate,
          ⟨[0x07, 0x57, 0x45, 0x4C, 0x43, 0x4F, 0x4D, 0x45]⟩) :=
  (next_handshake_command_welcome
    (set_state (world.new (session_base_t.new 0 [])) state_t.sending_welcome) msg_t.init
    (by decide)).1

/-- C8: for every buffer shorter than 9 bytes or whose first 9 bytes differ
from `"\x08INITIATE"`, `process_initiate` returns -1 with `errno = EPROTO`,
`parse_metadata` is not called, and the mechanism and the session are
unchanged. -/
theorem process_initiate_wrong_tag (w : world) (msg_ : msg_t)
    (h : msg_.size < 9
      ∨ msg_.data.take 9 ≠ [0x08, 0x49, 0x4E, 0x49, 0x54, 0x49, 0x41, 0x54, 0x45]) :
    (process_initiate w msg_).1 = -1
      ∧ (process_initiate w msg_).2.errno = EPROTO
      ∧ (process_initiate w msg_).2.parse_metadata_calls = w.parse_metadata_calls
      ∧ (process_initiate w msg_).2.self = w.self
      ∧ (process_initiate w msg_).2.session = w.session := by
  have hcond : msg_.size < 9 ∨ memcmp msg_.data INITIATE_literal 9 ≠ 0 := by
    by_cases hlen : msg_.size < 9
    · exact Or.inl hlen
    · right
      rw [Ne, memcmp_INITIATE_iff _ (by simpa [msg_t.size] using hlen)]
      rcases h with h | h
      · exact absurd h hlen
      · exact h
  have hr : process_initiate w msg_ = (-1, { w with errno := EPROTO }) := by
    unfold process_initiate
    simp only [hcond, if_true]
  simp [hr]

/-- Witness of C8: the 9 bytes `"\x08INITIATF"`. -/
theorem process_initiate_wrong_tag_witness :
    (process_initiate (set_state (world.new (session_base_t.new 0 []))
        state_t.waiting_for_initiate)
        ⟨[0x08, 0x49, 0x4E, 0x49, 0x54, 0x49, 0x41, 0x54, 0x46]⟩).1 = -1
      ∧ (process_initiate (set_state (world.new (session_base_t.new 0 []))
        state_t.waiting_for_initiate)
        ⟨[0x08, 0x49, 0x4E, 0x49, 0x54, 0x49, 0x41, 0x54, 0x46]⟩).2.errno = EPROTO
      ∧ (process_initiate (set_state (world.new (session_base_t.new 0 []))
        state_t.waiting_for_initiate)
        ⟨[0x08, 0x49, 0x4E, 0x49, 0x54, 0x49, 0x41, 0x54, 0x46]⟩).2.parse_metadata_calls
          = (set_state (world.new (session_base_t.new 0 []))
              state_t.waiting_for_initiate).parse_metadata_calls
      ∧ (process_initiate (set_state (world.new (session_base_t.new 0 []))
        state_t.waiting_for_initiate)
        ⟨[0x08, 0x49, 0x4E, 0x49, 0x54, 0x49, 0x41, 0x54, 0x46]⟩).2.self
          = (set_state (world.new (session_base_t.new 0 []))
              state_t.waiting_for_initiate).self
      ∧ (process_initiate (set_state (world.new (session_base_t.new 0 []))
        state_t.waiting_for_initiate)
        ⟨[0x08, 0x49, 0x4E, 0x49, 0x54, 0x49, 0x41, 0x54, 0x46]⟩).2.session
          = (set_state (world.new (session_base_t.new 0 []))
              state_t.waiting_for_initiate).session :=
  process_initiate_wrong_tag
    (set_state (world.new (session_base_t.new 0 [])) state_t.waiting_for_initiate)
    ⟨[0x08, 0x49, 0x4E, 0x49, 0x54, 0x49, 0x41, 0x54, 0x46]⟩ (Or.inr (by decide))

/-- C9: for every buffer of size `n >= 9` that starts with `"\x08INITIATE"`,
`process_initiate` hands exactly the `n - 9` bytes from offset 9 on to
`parse_metadata`, once; when `parse_metadata` returns 0 the call returns 0 and
the state becomes `sending_ready`; when it fails the call returns its non-zero
result and the state is unchanged. -/
theorem process_initiate_parses_payload (w : world) (msg_ : msg_t)
    (hn : 9 ≤ msg_.size)
    (ht : msg_.data.take 9 = [0x08, 0x49, 0x4E, 0x49, 0x54, 0x49, 0x41, 0x54, 0x45]) :
    (process_initiate w msg_).2.parse_metadata_calls
        = w.parse_metadata_calls ++ [msg_.data.drop 9]
      ∧ (msg_.data.drop 9).length = msg_.size - 9
      ∧ (process_initiate w msg_).1
          = (parse_metadata w (msg_.data.drop 9) (msg_.size - 9) false).1
      ∧ ((parse_metadata w (msg_.data.drop 9) (msg_.size - 9) false).1 = 0 →
          (process_initiate w msg_).1 = 0
            ∧ (process_initiate w msg_).2.self.state = state_t.sending_ready)
      ∧ ((parse_metadata w (msg_.data.drop 9) (msg_.size - 9) false).1 ≠ 0 →
          (process_initiate w msg_).1 ≠ 0
            ∧ (process_initiate w msg_).2.self.state = w.self.state) := by
  have hcond : ¬ (msg_.size < 9 ∨ memcmp msg_.data INITIATE_literal 9 ≠ 0) := by
    rw [not_or, not_lt, not_not, memcmp_INITIATE_iff _ (by simpa [msg_t.size] using hn)]
    exact ⟨hn, ht⟩
  have htake : (msg_.data.drop 9).take (msg_.size - 9) = msg_.data.drop 9 := by
    apply List.take_of_length_le
    simp [msg_t.size]
  unfold process_initiate
  simp only [hcond, if_false]
  refine ⟨?_, by simp [msg_t.size], ?_, ?_, ?_⟩
  · unfold parse_metadata
    simp only [htake]
    cases metadata_decode (msg_.data.drop 9) <;> simp
  · split <;> rfl
  · intro h0
    simp [h0]
  · intro h0
    simp only [h0, if_false, ne_eq, not_false_eq_true, true_and]
    unfold parse_metadata
    cases metadata_decode ((msg_.data.drop 9).take (msg_.size - 9)) <;> simp

/-- Witness of C9: INITIATE carrying the single property `A = [7, 8]`. -/
theorem process_initiate_parses_payload_witness :
    (process_initiate (set_state (world.new (session_base_t.new 0 []))
        state_t.waiting_for_initiate)
        ⟨[0x08, 0x49, 0x4E, 0x49, 0x54, 0x49, 0x41, 0x54, 0x45, 1, 0x41, 0, 0, 0, 2, 7, 8]⟩
      ).2.parse_metadata_calls = [] ++ [[1, 0x41, 0, 0, 0, 2, 7, 8]]
      ∧ (process_initiate (set_state (world.new (session_base_t.new 0 []))
        state_t.waiting_for_initiate)
        ⟨[0x08, 0x49, 0x4E, 0x49, 0x54, 0x49, 0x41, 0x54, 0x45, 1, 0x41, 0, 0, 0, 2, 7, 8]⟩
      ).1 = 0
      ∧ (process_initiate (set_state (world.new (session_base_t.new 0 []))
        state_t.waiting_for_initiate)
        ⟨[0x08, 0x49, 0x4E, 0x49, 0x54, 0x49, 0x41, 0x54, 0x45, 1, 0x41, 0, 0, 0, 2, 7, 8]⟩
      ).2.self.state = state_t.sending_ready :=
  have h := process_initiate_parses_payload
    (set_state (world.new (session_base_t.new 0 [])) state_t.waiting_for_initiate)
    ⟨[0x08, 0x49, 0x4E, 0x49, 0x54, 0x49, 0x41, 0x54, 0x45, 1, 0x41, 0, 0, 0, 2, 7, 8]⟩
    (by decide) (by decide)
  ⟨h.1, (h.2.2.2.1 (by decide)).1, (h.2.2.2.1 (by decide)).2⟩

/-- C10: for every 3-byte status code `s` stored from the ZAP reply, in state
`sending_error` `next_handshake_command` returns 0, the command is exactly the
10 bytes `"\5ERROR"`, one length byte equal to 3 and the 3 bytes of `s`
unchanged, and the state becomes `error_sent`; nothing else changes. -/
theorem next_handshake_command_error (w : world) (msg_ : msg_t)
    (hs : w.self.state = state_t.sending_error)
    (hl : w.self.status_code.length = 3) :
    next_handshake_command w msg_
      = some (0, set_state w state_t.error_sent,
          ⟨[0x05, 0x45, 0x52, 0x52, 0x4F, 0x52] ++ [3] ++ w.self.status_code⟩)
      ∧ (set_state w state_t.error_sent).self.state = state_t.error_sent
      ∧ (msg_t.mk ([0x05, 0x45, 0x52, 0x52, 0x4F, 0x52] ++ [3] ++ w.self.status_code)).size
          = 10 := by
  obtain ⟨a, b, c, habc⟩ : ∃ a b c, w.self.status_code = [a, b, c] := by
    match hsc : w.self.status_code, hl with
    | [a, b, c], _ => exact ⟨a, b, c, rfl⟩
  refine ⟨?_, rfl, by simp [msg_t.size, hl]⟩
  simp [next_handshake_command, hs, produce_error, habc, msg_t.init_size, memcpy,
    ERROR_literal, List.replicate, c_str, byte_of_nat]

/-- Witness of C10: the stored status code `"400"`. -/
theorem next_handshake_command_error_witness :
    next_handshake_command
        { self := { state := state_t.sending_error, status_code := [0x34, 0x30, 0x30],
                    user_id := [], zap_properties := [], zmtp_properties := [] },
          session := session_base_t.new 0 [], errno := 0, parse_metadata_calls := [] }
        msg_t.init
      = some (0,
          { self := { state := state_t.error_sent, status_code := [0x34, 0x30, 0x30],
                      user_id := [], zap_properties := [], zmtp_properties := [] },
            session := session_base_t.new 0 [], errno := 0, parse_metadata_calls := [] },
          ⟨[0x05, 0x45, 0x52, 0x52, 0x4F, 0x52, 0x03, 0x34, 0x30, 0x30]⟩) :=
  (next_handshake_command_error
    { self := { state := state_t.sending_error, status_code := [0x34, 0x30, 0x30],
                user_id := [], zap_properties := [], zmtp_properties := [] },
      session := session_base_t.new 0 [], errno := 0, parse_metadata_calls := [] }
    msg_t.init (by decide) (by decide)).1

/-! ## Lemmas on the accepted HELLO buffers -/

theorem cons_headD_drop (l : List Byte) (h : 1 ≤ l.length) : l = l.headD 0 :: l.drop 1 := by
  cases l with
  | nil => simp at h
  | cons a t => simp

theorem process_hello_framing_some (b u p : List Byte)
    (h : process_hello_framing ⟨b⟩ = some (u, p)) :
    u.length ≤ 255 ∧ p.length ≤ 255
      ∧ b = HELLO_tag ++ byte_of_nat u.length :: u ++ byte_of_nat p.length :: p := by
  have hnm : ¬ malformed_hello b := fun hm => by
    rw [process_hello_framing_malformed b hm] at h
    exact Option.noConfusion h
  have h6 : ¬ b.length < 6 := fun hc => hnm (malformed_hello.wrong_tag b (Or.inl hc))
  have htag : b.take 6 = HELLO_tag := by
    by_contra hc
    exact hnm (malformed_hello.wrong_tag b (Or.inr hc))
  have hb : b = HELLO_tag ++ b.drop 6 := by
    rw [← htag, List.take_append_drop]
  generalize b.drop 6 = r at hb
  subst hb
  cases r with
  | nil => exact absurd (by simpa using malformed_hello.no_username_length) hnm
  | cons n r1 =>
    have hu : ¬ r1.length < n.val := fun hc => hnm (malformed_hello.username_truncated n r1 hc)
    have hr1 : r1 = r1.take n.val ++ r1.drop n.val := (List.take_append_drop _ _).symm
    have hul : (r1.take n.val).length = n.val := by
      rw [List.length_take]; omega
    have hn : byte_of_nat (r1.take n.val).length = n := by
      rw [hul]; exact byte_of_nat_fin_val n
    have hu255 : (r1.take n.val).length ≤ 255 := by
      rw [hul]; omega
    generalize hr2e : r1.drop n.val = r2 at hr1
    cases r2 with
    | nil =>
      exfalso
      apply hnm
      have := malformed_hello.no_password_length (r1.take n.val) hu255
      rw [hn] at this
      rw [hr1]
      simpa using this
    | cons m r3 =>
      have hp : ¬ r3.length < m.val := by
        intro hc
        apply hnm
        have := malformed_hello.password_truncated (r1.take n.val) m r3 hu255 hc
        rw [hn] at this
        rw [hr1]
        simpa using this
      have hr3 : r3 = r3.take m.val ++ r3.drop m.val := (List.take_append_drop _ _).symm
      have hpl : (r3.take m.val).length = m.val := by
        rw [List.length_take]; omega
      have hm : byte_of_nat (r3.take m.val).length = m := by
        rw [hpl]; exact byte_of_nat_fin_val m
      have hp255 : (r3.take m.val).length ≤ 255 := by
        rw [hpl]; omega
      have hex : r3.drop m.val = [] := by
        by_contra hc
        apply hnm
        have := malformed_hello.trailing_bytes (r1.take n.val) (r3.take m.val) (r3.drop m.val)
          hu255 hp255 hc
        rw [hn, hm] at this
        rw [hr1, hr3]
        simpa using this
      have hlen3 : r3.length = m.val := by
        have := congrArg List.length hex
        simp only [List.length_drop, List.length_nil] at this
        omega
      have hlen1 : r1.length = n.val + 1 + m.val := by
        have := congrArg List.length hr1
        simp only [List.length_append, List.length_cons] at this
        omega
      have hsome : process_hello_framing ⟨HELLO_tag ++ n :: r1⟩
          = some (r1.take n.val, r3.take m.val) := by
        unfold process_hello_framing
        simp only [memcmp_HELLO_tag_append]
        simp [msg_t.size, HELLO_tag, hlen1, hr2e, hlen3]
        omega
      rw [hsome] at h
      simp only [Option.some.injEq, Prod.mk.injEq] at h
      obtain ⟨rfl, rfl⟩ := h
      refine ⟨hu255, hp255, ?_⟩
      rw [hn, hm]
      have h3 : r3.take m.val = r3 := by
        rw [List.take_of_length_le (by omega)]
      rw [h3]
      nth_rewrite 1 [hr1]
      simp

/-! ## The state machine: lemmas and claims -/

/-- C12: in every state other than `waiting_for_hello` and
`waiting_for_initiate`, for every incoming command,
`process_handshake_command` returns -1 with `errno = EPROTO`, leaves the
mechanism and the message unchanged, and sends no ZAP request. -/
theorem process_handshake_command_unexpected (w : world) (msg_ : msg_t)
    (h1 : w.self.state ≠ state_t.waiting_for_hello)
    (h2 : w.self.state ≠ state_t.waiting_for_initiate) :
    process_handshake_command w msg_ = (-1, { w with errno := EPROTO }, msg_)
      ∧ (process_handshake_command w msg_).2.1.errno = EPROTO
      ∧ (process_handshake_command w msg_).2.1.self.state = w.self.state
      ∧ (process_handshake_command w msg_).2.1.session.zap_sent = w.session.zap_sent := by
  have h : process_handshake_command w msg_ = (-1, { w with errno := EPROTO }, msg_) := by
    unfold process_handshake_command
    cases hs : w.self.state <;> simp_all
  simp [h]

/-- Witness of C12: a HELLO arriving when the server is about to send WELCOME. -/
theorem process_handshake_command_unexpected_witness :
    process_handshake_command
        (set_state (world.new (session_base_t.new 0 [])) state_t.sending_welcome)
        (hello_command [0x61] [0x62])
      = (-1,
         { set_state (world.new (session_base_t.new 0 [])) state_t.sending_welcome with
           errno := EPROTO },
         hello_command [0x61] [0x62]) :=
  (process_handshake_command_unexpected
    (set_state (world.new (session_base_t.new 0 [])) state_t.sending_welcome)
    (hello_command [0x61] [0x62]) (by decide) (by decide)).1

/-- C19: every HELLO buffer that passes the framing checks of `process_hello`
yields a username and a password of at most 255 bytes each, and its size is
exactly `8 + len (username) + len (password)`, hence between 8 and 518. -/
theorem process_hello_framing_sizes (msg_ : msg_t) (u p : List Byte)
    (h : process_hello_framing msg_ = some (u, p)) :
    u.length ≤ 255 ∧ p.length ≤ 255
      ∧ msg_.size = 8 + u.length + p.length
      ∧ 8 ≤ msg_.size ∧ msg_.size ≤ 518 := by
  obtain ⟨hu, hp, hb⟩ := process_hello_framing_some msg_.data u p h
  have hsz : msg_.size = 8 + u.length + p.length := by
    simp only [msg_t.size]
    rw [hb]
    simp [HELLO_tag]
    omega
  refine ⟨hu, hp, hsz, ?_, ?_⟩ <;> omega

/-- Witness of C19: the HELLO of user `"a"` with password `"b"`, 10 bytes. -/
theorem process_hello_framing_sizes_witness :
    ([0x61] : List Byte).length ≤ 255 ∧ ([0x62] : List Byte).length ≤ 255
      ∧ (hello_command [0x61] [0x62]).size
          = 8 + ([0x61] : List Byte).length + ([0x62] : List Byte).length
      ∧ 8 ≤ (hello_command [0x61] [0x62]).size ∧ (hello_command [0x61] [0x62]).size ≤ 518 :=
  process_hello_framing_sizes (hello_command [0x61] [0x62]) [0x61] [0x62] (by decide)

theorem next_handshake_command_cases (w : world) (msg_ : msg_t) :
    (w.self.state = state_t.sending_welcome
        ∧ next_handshake_command w msg_
          = some (0, set_state w state_t.waiting_for_initiate,
              ⟨[0x07, 0x57, 0x45, 0x4C, 0x43, 0x4F, 0x4D, 0x45]⟩))
      ∨ (w.self.state = state_t.sending_ready
        ∧ next_handshake_command w msg_
          = some (0, set_state w state_t.ready,
              ⟨[0x05, 0x52, 0x45, 0x41, 0x44, 0x59]
                ++ metadata_encode w.self.zmtp_properties⟩))
      ∨ (w.self.state = state_t.sending_error ∧ w.self.status_code.length = 3
        ∧ next_handshake_command w msg_
          = some (0, set_state w state_t.error_sent,
              ⟨[0x05, 0x45, 0x52, 0x52, 0x4F, 0x52] ++ [3] ++ w.self.status_code⟩))
      ∨ (w.self.state = state_t.sending_error ∧ next_handshake_command w msg_ = none)
      ∨ ((w.self.state = state_t.waiting_for_hello
          ∨ w.self.state = state_t.waiting_for_initiate
          ∨ w.self.state = state_t.error_sent ∨ w.self.state = state_t.ready)
        ∧ next_handshake_command w msg_ = some (-1, { w with errno := EAGAIN }, msg_)) := by
  cases hs : w.self.state
  case sending_welcome =>
    left
    simp [next_handshake_command, hs, produce_welcome, msg_t.init_size, memcpy,
      WELCOME_literal, List.replicate]
  case sending_ready =>
    right; left
    simp [next_handshake_command, hs, produce_ready, make_command_with_basic_properties,
      READY_literal]
  case sending_error =>
    by_cases hl : w.self.status_code.length = 3
    · right; right; left
      obtain ⟨a, b, c, habc⟩ : ∃ a b c, w.self.status_code = [a, b, c] := by
        match hsc : w.self.status_code, hl with
        | [a, b, c], _ => exact ⟨a, b, c, rfl⟩
      simp [next_handshake_command, hs, produce_error, habc, msg_t.init_size, memcpy,
        ERROR_literal, List.replicate, c_str, byte_of_nat]
    · right; right; right; left
      simp [next_handshake_command, hs, produce_error, hl]
  all_goals
    right; right; right; right
    simp [next_handshake_command, hs]

theorem parse_metadata_rc (w : world) (ptr_ : List Byte) (length_ : Nat) (zap_flag : Bool) :
    (parse_metadata w ptr_ length_ zap_flag).1 = 0
      ∨ (parse_metadata w ptr_ length_ zap_flag).1 = -1 := by
  unfold parse_metadata
  cases metadata_decode (ptr_.take length_) with
  | none => right; rfl
  | some props => left; cases zap_flag <;> rfl

theorem process_hello_rc (w : world) (msg_ : msg_t) :
    (process_hello w msg_).1 = 0 ∨ (process_hello w msg_).1 = -1 := by
  unfold process_hello
  cases process_hello_framing msg_ with
  | none => right; rfl
  | some c =>
    obtain ⟨u, p⟩ := c
    simp only
    split
    · right; rfl
    · simp only
      split
      · right; rfl
      · left; rfl

theorem process_initiate_rc (w : world) (msg_ : msg_t) :
    (process_initiate w msg_).1 = 0 ∨ (process_initiate w msg_).1 = -1 := by
  unfold process_initiate
  simp only
  split
  · right; rfl
  · split
    · left; assumption
    · exact parse_metadata_rc _ _ _ _

theorem process_handshake_command_eq (msg_ : msg_t) (r : Int × world)
    (hr : r.1 = 0 ∨ r.1 = -1) :
    ((if r.1 = 0 then ((0 : Int), r.2, msg_t.init) else (r.1, r.2, msg_)).1 = 0
        ∧ (if r.1 = 0 then ((0 : Int), r.2, msg_t.init) else (r.1, r.2, msg_)).2.2 = msg_t.init)
      ∨ ((if r.1 = 0 then ((0 : Int), r.2, msg_t.init) else (r.1, r.2, msg_)).1 = -1
        ∧ (if r.1 = 0 then ((0 : Int), r.2, msg_t.init) else (r.1, r.2, msg_)).2.2 = msg_) := by
  rcases hr with h | h
  · left; simp [h]
  · right; simp [h]

/-- C13: in every state other than `sending_welcome`, `sending_ready` and
`sending_error`, `next_handshake_command` returns -1 with `errno = EAGAIN`,
writes no command and leaves the state unchanged. In every state (second
world) one call aborts on the assertion, or returns -1 with the message
untouched, or returns 0 with exactly one command in the message: WELCOME,
READY with the metadata block, or ERROR with the status code. -/
theorem next_handshake_command_at_most_one (w v : world) (msg_ : msg_t)
    (h1 : w.self.state ≠ state_t.sending_welcome)
    (h2 : w.self.state ≠ state_t.sending_ready)
    (h3 : w.self.state ≠ state_t.sending_error) :
    next_handshake_command w msg_ = some (-1, { w with errno := EAGAIN }, msg_)
      ∧ ({ w with errno := EAGAIN } : world).self.state = w.self.state
      ∧ (next_handshake_command v msg_ = none
          ∨ next_handshake_command v msg_ = some (-1, { v with errno := EAGAIN }, msg_)
          ∨ next_handshake_command v msg_
              = some (0, set_state v state_t.waiting_for_initiate,
                  ⟨[0x07, 0x57, 0x45, 0x4C, 0x43, 0x4F, 0x4D, 0x45]⟩)
          ∨ next_handshake_command v msg_
              = some (0, set_state v state_t.ready,
                  ⟨[0x05, 0x52, 0x45, 0x41, 0x44, 0x59]
                    ++ metadata_encode v.self.zmtp_properties⟩)
          ∨ next_handshake_command v msg_
              = some (0, set_state v state_t.error_sent,
                  ⟨[0x05, 0x45, 0x52, 0x52, 0x4F, 0x52] ++ [3] ++ v.self.status_code⟩)) := by
  refine ⟨?_, rfl, ?_⟩
  · unfold next_handshake_command
    cases hs : w.self.state <;> simp_all
  · rcases next_handshake_command_cases v msg_ with h | h | h | h | h
    · exact Or.inr (Or.inr (Or.inl h.2))
    · exact Or.inr (Or.inr (Or.inr (Or.inl h.2)))
    · exact Or.inr (Or.inr (Or.inr (Or.inr h.2.2)))
    · exact Or.inl h.2
    · exact Or.inr (Or.inl h.2)

/-- Witness of C13: a fresh server, waiting for HELLO, has nothing to send. -/
theorem next_handshake_command_at_most_one_witness :
    next_handshake_command (world.new (session_base_t.new 0 [])) msg_t.init
      = some (-1, { world.new (session_base_t.new 0 []) with errno := EAGAIN }, msg_t.init) :=
  (next_handshake_command_at_most_one (world.new (session_base_t.new 0 []))
    (world.new (session_base_t.new 0 [])) msg_t.init (by decide) (by decide) (by decide)).1

/-- C20: `process_handshake_command` consumes the command exactly when it
succeeds. It returns 0 or -1; when it returns 0 the message has been closed
and initialised again, so it is empty; when it returns -1 the message is as it
was passed in. -/
theorem process_handshake_command_consumes (w : world) (msg_ : msg_t) :
    ((process_handshake_command w msg_).1 = 0
        ∧ (process_handshake_command w msg_).2.2 = msg_t.init
        ∧ (process_handshake_command w msg_).2.2.size = 0)
      ∨ ((process_handshake_command w msg_).1 = -1
        ∧ (process_handshake_command w msg_).2.2 = msg_) := by
  have key : ((process_handshake_command w msg_).1 = 0
        ∧ (process_handshake_command w msg_).2.2 = msg_t.init)
      ∨ ((process_handshake_command w msg_).1 = -1
        ∧ (process_handshake_command w msg_).2.2 = msg_) := by
    unfold process_handshake_command
    cases hs : w.self.state
    case waiting_for_hello =>
      exact process_handshake_command_eq msg_ _ (process_hello_rc w msg_)
    case waiting_for_initiate =>
      exact process_handshake_command_eq msg_ _ (process_initiate_rc w msg_)
    all_goals
      exact process_handshake_command_eq msg_ (-1, { w with errno := EPROTO })
        (Or.inr rfl)
  rcases key with ⟨h0, hm⟩ | h
  · left
    refine ⟨h0, hm, ?_⟩
    rw [hm]
    rfl
  · right
    exact h

theorem handle_zap_status_code_eq (w : world) :
    handle_zap_status_code w
      = set_state w (if w.self.status_code.headD 0 = 0x32 then state_t.sending_welcome
          else state_t.sending_error) := by
  unfold handle_zap_status_code set_state
  split <;> rfl

theorem receive_and_process_zap_reply_outcome (w : world) :
    (receive_and_process_zap_reply w).2.self.state = w.self.state
      ∨ ((receive_and_process_zap_reply w).1 = 0
        ∧ ∃ reply inbox, w.session.zap_inbox = reply :: inbox
          ∧ (receive_and_process_zap_reply w).2.session.zap_inbox = inbox
          ∧ (receive_and_process_zap_reply w).2.self.status_code = reply.status_code
          ∧ ((reply.status_code.headD 0 = 0x32
              ∧ (receive_and_process_zap_reply w).2.self.state = state_t.sending_welcome)
            ∨ (reply.status_code.headD 0 ≠ 0x32
              ∧ (receive_and_process_zap_reply w).2.self.state = state_t.sending_error))) := by
  unfold receive_and_process_zap_reply
  cases hi : w.session.zap_inbox with
  | nil => left; rfl
  | cons reply inbox =>
    simp only
    split
    · left; rfl
    · split
      · rename_i d0 d1 d2 hsc
        split
        · split
          · rename_i hd0
            simp only [parse_metadata]
            cases metadata_decode (reply.metadata.take reply.metadata.length) with
            | none => left; rfl
            | some props =>
              right
              refine ⟨by simp, reply, inbox, rfl, ?_⟩
              simp [handle_zap_status_code_eq, set_state, hsc, hd0]
          · rename_i hd0
            right
            refine ⟨rfl, reply, inbox, rfl, ?_⟩
            simp [handle_zap_status_code_eq, set_state, hsc, hd0]
        · left; rfl
      · left; rfl

theorem send_zap_request_self (w : world) (u p : List Byte) :
    (send_zap_request w u p).self = w.self := rfl

theorem send_zap_request_zap_inbox (w : world) (u p : List Byte) :
    (send_zap_request w u p).session.zap_inbox = w.session.zap_inbox := rfl

theorem send_zap_request_zap_sent_length (w : world) (u p : List Byte) :
    (send_zap_request w u p).session.zap_sent.length = w.session.zap_sent.length + 1 := by
  simp [send_zap_request, zap_client_send_zap_request]

theorem process_hello_outcome (w : world) (msg_ : msg_t) :
    (process_hello w msg_).2.self.state = w.self.state
      ∨ ((process_hello w msg_).1 = 0
        ∧ (process_hello w msg_).2.session.zap_sent.length = w.session.zap_sent.length + 1
        ∧ ∃ reply inbox, w.session.zap_inbox = reply :: inbox
          ∧ (process_hello w msg_).2.session.zap_inbox = inbox
          ∧ (process_hello w msg_).2.self.status_code = reply.status_code
          ∧ ((reply.status_code.headD 0 = 0x32
              ∧ (process_hello w msg_).2.self.state = state_t.sending_welcome)
            ∨ (reply.status_code.headD 0 ≠ 0x32
              ∧ (process_hello w msg_).2.self.state = state_t.sending_error))) := by
  unfold process_hello
  cases process_hello_framing msg_ with
  | none => left; rfl
  | some c =>
    obtain ⟨u, p⟩ := c
    simp only [zap_connect]
    by_cases hc : w.session.zap_connect_rc ≠ 0
    · left; simp [hc]
    · simp only [hc, if_false]
      rcases receive_and_process_zap_reply_outcome (send_zap_request w u p) with h | h
      · left
        rw [h, send_zap_request_self]
      · right
        obtain ⟨h0, reply, inbox, hi, h1, h2, h3⟩ := h
        refine ⟨by simp [h0], ?_, reply, inbox, ?_, h1, h2, h3⟩
        · rw [receive_and_process_zap_reply_zap_sent, send_zap_request_zap_sent_length]
        · rw [← hi, send_zap_request_zap_inbox]

theorem process_handshake_command_hello (w : world) (msg_ : msg_t)
    (hs : w.self.state = state_t.waiting_for_hello) :
    (process_handshake_command w msg_).1 = (process_hello w msg_).1
      ∧ (process_handshake_command w msg_).2.1 = (process_hello w msg_).2 := by
  unfold process_handshake_command
  simp only [hs]
  split
  · rename_i h; exact ⟨h.symm, rfl⟩
  · exact ⟨rfl, rfl⟩

theorem process_handshake_command_initiate (w : world) (msg_ : msg_t)
    (hs : w.self.state = state_t.waiting_for_initiate) :
    (process_handshake_command w msg_).1 = (process_initiate w msg_).1
      ∧ (process_handshake_command w msg_).2.1 = (process_initiate w msg_).2 := by
  unfold process_handshake_command
  simp only [hs]
  split
  · rename_i h; exact ⟨h.symm, rfl⟩
  · exact ⟨rfl, rfl⟩

theorem process_initiate_state (w : world) (msg_ : msg_t) :
    (process_initiate w msg_).2.self.state = w.self.state
      ∨ (process_initiate w msg_).2.self.state = state_t.sending_ready := by
  unfold process_initiate
  simp only
  split
  · left; rfl
  · split
    · right; rfl
    · left
      unfold parse_metadata
      cases metadata_decode ((msg_.data.drop 9).take (msg_.size - 9)) <;> rfl

theorem process_handshake_command_other (w : world) (msg_ : msg_t)
    (h1 : w.self.state ≠ state_t.waiting_for_hello)
    (h2 : w.self.state ≠ state_t.waiting_for_initiate) :
    process_handshake_command w msg_ = (-1, { w with errno := EPROTO }, msg_) := by
  unfold process_handshake_command
  cases hs : w.self.state <;> simp_all

theorem process_handshake_command_state (w : world) (msg_ : msg_t) :
    (process_handshake_command w msg_).2.1.self.state = w.self.state
      ∨ (w.self.state = state_t.waiting_for_hello
        ∧ ((process_handshake_command w msg_).2.1.self.state = state_t.sending_welcome
          ∨ (process_handshake_command w msg_).2.1.self.state = state_t.sending_error))
      ∨ (w.self.state = state_t.waiting_for_initiate
        ∧ (process_handshake_command w msg_).2.1.self.state = state_t.sending_ready) := by
  by_cases h1 : w.self.state = state_t.waiting_for_hello
  · rw [(process_handshake_command_hello w msg_ h1).2]
    rcases process_hello_outcome w msg_ with h | ⟨_, _, _, _, _, _, _, h | h⟩
    · exact Or.inl h
    · exact Or.inr (Or.inl ⟨h1, Or.inl h.2⟩)
    · exact Or.inr (Or.inl ⟨h1, Or.inr h.2⟩)
  · by_cases h2 : w.self.state = state_t.waiting_for_initiate
    · rw [(process_handshake_command_initiate w msg_ h2).2]
      rcases process_initiate_state w msg_ with h | h
      · exact Or.inl h
      · exact Or.inr (Or.inr ⟨h2, h⟩)
    · left
      rw [process_handshake_command_other w msg_ h1 h2]

theorem next_handshake_command_state (w : world) (msg_ : msg_t) (r : Int × world × msg_t)
    (h : next_handshake_command w msg_ = some r) :
    (r.2.1.self.state = w.self.state ∧ r.1 = -1
        ∧ w.self.state ≠ state_t.sending_welcome ∧ w.self.state ≠ state_t.sending_ready
        ∧ w.self.state ≠ state_t.sending_error)
      ∨ (w.self.state = state_t.sending_welcome
        ∧ r.2.1.self.state = state_t.waiting_for_initiate)
      ∨ (w.self.state = state_t.sending_ready ∧ r.2.1.self.state = state_t.ready)
      ∨ (w.self.state = state_t.sending_error ∧ r.2.1.self.state = state_t.error_sent) := by
  rcases next_handshake_command_cases w msg_ with h1 | h1 | h1 | h1 | h1
  · rw [h1.2, Option.some.injEq] at h
    subst h
    exact Or.inr (Or.inl ⟨h1.1, rfl⟩)
  · rw [h1.2, Option.some.injEq] at h
    subst h
    exact Or.inr (Or.inr (Or.inl ⟨h1.1, rfl⟩))
  · rw [h1.2.2, Option.some.injEq] at h
    subst h
    exact Or.inr (Or.inr (Or.inr ⟨h1.1, rfl⟩))
  · rw [h1.2] at h
    exact Option.noConfusion h
  · rw [h1.2, Option.some.injEq] at h
    subst h
    left
    refine ⟨rfl, rfl, ?_⟩
    rcases h1.1 with hs | hs | hs | hs <;> simp [hs]

/-- C15: every state change made by `next_handshake_command` or
`process_handshake_command` is an edge of the documented graph
(`documented_edge`): `waiting_for_hello` to `sending_welcome` or
`sending_error`, `sending_welcome` to `waiting_for_initiate`,
`waiting_for_initiate` to `sending_ready` or `sending_error`, `sending_ready` to
`ready`, `sending_error` to `error_sent`; in the terminal states `ready` and
`error_sent` neither operation changes the state. -/
theorem state_changes_follow_graph (w : world) (msg_ : msg_t) :
    ((process_handshake_command w msg_).2.1.self.state = w.self.state
        ∨ documented_edge w.self.state (process_handshake_command w msg_).2.1.self.state
            = true)
      ∧ (∀ r, next_handshake_command w msg_ = some r →
          r.2.1.self.state = w.self.state
            ∨ documented_edge w.self.state r.2.1.self.state = true)
      ∧ (w.self.state = state_t.ready ∨ w.self.state = state_t.error_sent →
          (process_handshake_command w msg_).2.1.self.state = w.self.state
            ∧ (next_handshake_command w msg_).map (fun r => r.2.1.self.state)
                = some w.self.state) := by
  refine ⟨?_, ?_, ?_⟩
  · rcases process_handshake_command_state w msg_ with h | ⟨hs, h | h⟩ | ⟨hs, h⟩
    · exact Or.inl h
    · right; rw [hs, h]; rfl
    · right; rw [hs, h]; rfl
    · right; rw [hs, h]; rfl
  · intro r hr
    rcases next_handshake_command_state w msg_ r hr with h | ⟨hs, h⟩ | ⟨hs, h⟩ | ⟨hs, h⟩
    · exact Or.inl h.1
    · right; rw [hs, h]; rfl
    · right; rw [hs, h]; rfl
    · right; rw [hs, h]; rfl
  · intro ht
    have h1 : w.self.state ≠ state_t.waiting_for_hello := by
      rcases ht with h | h <;> simp [h]
    have h2 : w.self.state ≠ state_t.waiting_for_initiate := by
      rcases ht with h | h <;> simp [h]
    refine ⟨by rw [process_handshake_command_other w msg_ h1 h2], ?_⟩
    rcases next_handshake_command_cases w msg_ with h | h | h | h | h
    · rcases ht with h' | h' <;> simp [h'] at h
    · rcases ht with h' | h' <;> simp [h'] at h
    · rcases ht with h' | h' <;> simp [h'] at h
    · rcases ht with h' | h' <;> simp [h'] at h
    · rw [h.2]; rfl

theorem unauthenticated_iff (s : state_t) :
    unauthenticated s = true
      ↔ s = state_t.waiting_for_hello ∨ s = state_t.sending_error ∨ s = state_t.error_sent := by
  cases s <;> simp [unauthenticated]

theorem process_handshake_command_unauthenticated (w : world) (msg_ : msg_t)
    (hu : unauthenticated w.self.state = true) (ha : hello_authenticated w msg_ = false) :
    unauthenticated (process_handshake_command w msg_).2.1.self.state = true := by
  by_cases h1 : w.self.state = state_t.waiting_for_hello
  · have hp := process_handshake_command_hello w msg_ h1
    rcases process_hello_outcome w msg_ with h | ⟨h0, hlen, reply, inbox, hi, hib, hsc, h | h⟩
    · rw [hp.2, h]; exact hu
    · exfalso
      have : hello_authenticated w msg_ = true := by
        unfold hello_authenticated
        simp only [hp.1, hp.2, h1, h0, hlen, hi, hib, hsc, h.1, decide_True, Bool.and_self]
      rw [this] at ha
      exact Bool.noConfusion ha
    · rw [hp.2, h.2]; rfl
  · have h2 : w.self.state ≠ state_t.waiting_for_initiate := by
      intro h
      rw [h] at hu
      exact Bool.noConfusion hu
    rw [process_handshake_command_other w msg_ h1 h2]
    exact hu

theorem not_welcome_or_ready_error (s : List Byte) :
    is_welcome_or_ready ⟨[0x05, 0x45, 0x52, 0x52, 0x4F, 0x52] ++ [3] ++ s⟩ = false := by
  simp [is_welcome_or_ready]

theorem step_unauthenticated (w : world) (c : call_t) (r : world × event_t)
    (hu : unauthenticated w.self.state = true) (h : step w c = some r) :
    r.2 = event_t.zap_success
      ∨ (unauthenticated r.1.self.state = true
        ∧ ∀ out, r.2 = event_t.command out → is_welcome_or_ready out = false) := by
  cases c with
  | process_handshake_command msg_ =>
    simp only [step, Option.some.injEq] at h
    subst h
    by_cases ha : hello_authenticated w msg_ = true
    · left; simp [ha]
    · right
      have ha2 : hello_authenticated w msg_ = false := by simpa using ha
      refine ⟨process_handshake_command_unauthenticated w msg_ hu ha2, ?_⟩
      intro out ho
      simp [ha2] at ho
  | next_handshake_command msg_ =>
    right
    have hu2 := (unauthenticated_iff _).mp hu
    simp only [step] at h
    rcases next_handshake_command_cases w msg_ with h1 | h1 | h1 | h1 | h1
    · rcases hu2 with h2 | h2 | h2 <;> simp [h2] at h1
    · rcases hu2 with h2 | h2 | h2 <;> simp [h2] at h1
    · rw [h1.2.2] at h
      simp only [Option.some.injEq] at h
      subst h
      refine ⟨rfl, ?_⟩
      intro out ho
      simp only [if_true, event_t.command.injEq] at ho
      rw [← ho]
      exact not_welcome_or_ready_error _
    · rw [h1.2] at h
      exact Option.noConfusion h
    · rw [h1.2] at h
      simp only [Option.some.injEq] at h
      subst h
      refine ⟨hu, ?_⟩
      intro out ho
      simp at ho

theorem run_unauthenticated : ∀ (calls : List call_t) (w : world) (pre post : List event_t)
    (out : msg_t), unauthenticated w.self.state = true →
    run w calls = pre ++ event_t.command out :: post →
    is_welcome_or_ready out = true → event_t.zap_success ∈ pre := by
  intro calls
  induction calls with
  | nil =>
    intro w pre post out _ hrun _
    simp [run] at hrun
  | cons c cs ih =>
    intro w pre post out hu hrun ho
    simp only [run] at hrun
    cases hstep : step w c with
    | none =>
      rw [hstep] at hrun
      simp at hrun
    | some r =>
      rw [hstep] at hrun
      simp only at hrun
      cases pre with
      | nil =>
        simp only [List.nil_append, List.cons.injEq] at hrun
        rcases step_unauthenticated w c r hu hstep with h | h
        · rw [h] at hrun
          exact absurd hrun.1 (by simp)
        · have := h.2 out hrun.1
          rw [this] at ho
          exact Bool.noConfusion ho
      | cons e pre2 =>
        simp only [List.cons_append, List.cons.injEq] at hrun
        rcases step_unauthenticated w c r hu hstep with h | h
        · rw [← hrun.1, h]
          exact List.mem_cons_self _ _
        · exact List.mem_cons_of_mem _ (ih r.1 pre2 post out h.1 hrun.2 ho)

/-- C14: in every run of the PLAIN server that starts in `waiting_for_hello`,
a command produced by `next_handshake_command` that is a WELCOME or a READY
comes after a `process_hello` call that sent the ZAP request, read its reply,
returned 0 and got a success verdict (event `zap_success`). -/
theorem no_welcome_or_ready_before_zap_success (w : world) (calls : List call_t)
    (pre post : List event_t) (out : msg_t)
    (hs : w.self.state = state_t.waiting_for_hello)
    (hrun : run w calls = pre ++ event_t.command out :: post)
    (ho : is_welcome_or_ready out = true) :
    event_t.zap_success ∈ pre :=
  run_unauthenticated calls w pre post out (by rw [hs]; rfl) hrun ho

/-- Witness of C14: HELLO of user `"a"` with password `"b"`, accepted with
status `"200"`, then `next_handshake_command`: the WELCOME comes second, after
the ZAP success. -/
theorem no_welcome_or_ready_before_zap_success_witness :
    run (world.new (session_base_t.new 0 [zap_reply_t.new [0x32, 0x30, 0x30]]))
        [call_t.process_handshake_command (hello_command [0x61] [0x62]),
         call_t.next_handshake_command msg_t.init]
      = [event_t.zap_success,
         event_t.command ⟨[0x07, 0x57, 0x45, 0x4C, 0x43, 0x4F, 0x4D, 0x45]⟩]
      ∧ event_t.zap_success ∈ [event_t.zap_success] :=
  ⟨by decide,
   no_welcome_or_ready_before_zap_success
     (world.new (session_base_t.new 0 [zap_reply_t.new [0x32, 0x30, 0x30]]))
     [call_t.process_handshake_command (hello_command [0x61] [0x62]),
      call_t.next_handshake_command msg_t.init]
     [event_t.zap_success] []
     ⟨[0x07, 0x57, 0x45, 0x4C, 0x43, 0x4F, 0x4D, 0x45]⟩ (by decide) (by decide) (by decide)⟩

theorem hello_authenticated_other_state (w : world) (msg_ : msg_t)
    (h : w.self.state ≠ state_t.waiting_for_hello) : hello_authenticated w msg_ = false := by
  unfold hello_authenticated
  simp [h]

theorem process_hello_failure_status (w : world) (msg_ : msg_t) (u p : List Byte)
    (reply : zap_reply_t) (inbox : List zap_reply_t) (d0 d1 d2 : Byte)
    (hf : process_hello_framing msg_ = some (u, p))
    (hc : w.session.zap_connect_rc = 0)
    (hi : w.session.zap_inbox = reply :: inbox)
    (hv : reply.version = ZAP_VERSION)
    (hid : reply.request_id = w.session.zap_request_id)
    (hst : reply.status_code = [d0, d1, d2])
    (h0 : 0x33 ≤ d0.val ∧ d0.val ≤ 0x35) (h1 : is_digit d1 = true) (h2 : is_digit d2 = true) :
    (process_hello w msg_).1 = 0
      ∧ (process_hello w msg_).2.self.state = state_t.sending_error
      ∧ (process_hello w msg_).2.self.status_code = [d0, d1, d2] := by
  have hne : d0 ≠ 0x32 := by
    intro h
    rw [h] at h0
    exact absurd h0.1 (by decide)
  have hge : 0x32 ≤ d0.val := by omega
  simp [process_hello, hf, zap_connect, hc, send_zap_request, zap_client_send_zap_request,
    receive_and_process_zap_reply, hi, hv, hid, hst, h1, h2, hne, hge, h0.2,
    handle_zap_status_code]

theorem run_rejected : ∀ (calls : List call_t) (w : world) (s : List Byte),
    (w.self.state = state_t.sending_error ∧ w.self.status_code = s ∧ s.length = 3)
      ∨ w.self.state = state_t.error_sent →
    ∀ e ∈ run w calls, e = event_t.nothing
      ∨ e = event_t.command ⟨[0x05, 0x45, 0x52, 0x52, 0x4F, 0x52] ++ [3] ++ s⟩ := by
  intro calls
  induction calls with
  | nil => intro w s _ e he; simp [run] at he
  | cons c cs ih =>
    intro w s hw e he
    have h1 : w.self.state ≠ state_t.waiting_for_hello := by
      rcases hw with h | h
      · rw [h.1]; decide
      · rw [h]; decide
    have h2 : w.self.state ≠ state_t.waiting_for_initiate := by
      rcases hw with h | h
      · rw [h.1]; decide
      · rw [h]; decide
    cases c with
    | process_handshake_command msg_ =>
      simp only [run, step, hello_authenticated_other_state w msg_ h1,
        process_handshake_command_other w msg_ h1 h2, List.mem_cons] at he
      rcases he with he | he
      · left; simpa using he
      · exact ih { w with errno := EPROTO } s hw e he
    | next_handshake_command msg_ =>
      simp only [run, step] at he
      rcases next_handshake_command_cases w msg_ with h | h | h | h | h
      · rcases hw with h3 | h3
        · rw [h3.1] at h; exact absurd h.1 (by decide)
        · rw [h3] at h; exact absurd h.1 (by decide)
      · rcases hw with h3 | h3
        · rw [h3.1] at h; exact absurd h.1 (by decide)
        · rw [h3] at h; exact absurd h.1 (by decide)
      · rw [h.2.2] at he
        simp only [if_true, List.mem_cons] at he
        rcases hw with h3 | h3
        · rcases he with he | he
          · right; rw [he, h3.2.1]
          · exact ih _ s (Or.inr rfl) e he
        · rw [h3] at h; exact absurd h.1 (by decide)
      · rw [h.2] at he
        simp at he
      · rw [h.2] at he
        simp only [List.mem_cons] at he
        rcases he with he | he
        · left; simpa using he
        · exact ih { w with errno := EAGAIN } s hw e he

/-- C11: end-to-end rejection. For every HELLO that passes the framing checks
on a server in `waiting_for_hello` with a reachable authenticator, when the ZAP
reply (version `"1.0"`, the request id echoed) has status `"400"`:
`process_handshake_command` returns 0 and the state is `sending_error`; the
next `next_handshake_command` emits ERROR carrying `"400"` and the state is
`error_sent`; and in every run that starts with this HELLO, whatever calls
follow, every event is silence or that ERROR command: no WELCOME and no READY
is produced. -/
theorem hello_rejected_400 (w : world) (msg_ out : msg_t) (u p : List Byte)
    (reply : zap_reply_t) (inbox : List zap_reply_t) (calls : List call_t)
    (hs : w.self.state = state_t.waiting_for_hello)
    (hf : process_hello_framing msg_ = some (u, p))
    (hc : w.session.zap_connect_rc = 0)
    (hi : w.session.zap_inbox = reply :: inbox)
    (hv : reply.version = ZAP_VERSION)
    (hid : reply.request_id = w.session.zap_request_id)
    (hst : reply.status_code = [0x34, 0x30, 0x30]) :
    (process_handshake_command w msg_).1 = 0
      ∧ (process_handshake_command w msg_).2.1.self.state = state_t.sending_error
      ∧ next_handshake_command (process_handshake_command w msg_).2.1 out
          = some (0, set_state (process_handshake_command w msg_).2.1 state_t.error_sent,
              ⟨[0x05, 0x45, 0x52, 0x52, 0x4F, 0x52, 0x03, 0x34, 0x30, 0x30]⟩)
      ∧ (set_state (process_handshake_command w msg_).2.1 state_t.error_sent).self.state
          = state_t.error_sent
      ∧ ∀ e ∈ run w (call_t.process_handshake_command msg_ :: calls),
          e = event_t.nothing
            ∨ e = event_t.command
                ⟨[0x05, 0x45, 0x52, 0x52, 0x4F, 0x52, 0x03, 0x34, 0x30, 0x30]⟩ := by
  have hp := process_handshake_command_hello w msg_ hs
  obtain ⟨hrc, hse, hsc⟩ := process_hello_failure_status w msg_ u p reply inbox
    0x34 0x30 0x30 hf hc hi hv hid hst (by decide) (by decide) (by decide)
  have hnext : next_handshake_command (process_handshake_command w msg_).2.1 out
      = some (0, set_state (process_handshake_command w msg_).2.1 state_t.error_sent,
          ⟨[0x05, 0x45, 0x52, 0x52, 0x4F, 0x52, 0x03, 0x34, 0x30, 0x30]⟩) := by
    rcases next_handshake_command_cases (process_handshake_command w msg_).2.1 out
      with h | h | h | h | h
    · rw [hp.2, hse] at h; exact absurd h.1 (by decide)
    · rw [hp.2, hse] at h; exact absurd h.1 (by decide)
    · rw [h.2.2, hp.2, hsc]; rfl
    · exfalso
      simp [next_handshake_command, hp.2, hse, produce_error, hsc] at h
    · rw [hp.2, hse] at h
      rcases h.1 with h | h | h | h <;> exact absurd h (by decide)
  refine ⟨by rw [hp.1, hrc], by rw [hp.2, hse], hnext, rfl, ?_⟩
  intro e he
  simp only [run, step, List.mem_cons] at he
  rcases he with he | he
  · left
    have hna : hello_authenticated w msg_ = false := by
      unfold hello_authenticated
      simp [hi, hst]
    simpa [hna] using he
  · have := run_rejected calls (process_handshake_command w msg_).2.1 [0x34, 0x30, 0x30]
      (Or.inl ⟨by rw [hp.2, hse], by rw [hp.2, hsc], rfl⟩) e he
    simpa using this

/-- Witness of C11: HELLO of user `"a"` with password `"b"`, rejected with
`"400"`, followed by two `next_handshake_command` calls and a second HELLO. -/
theorem hello_rejected_400_witness :
    run (world.new (session_base_t.new 0 [zap_reply_t.new [0x34, 0x30, 0x30]]))
        [call_t.process_handshake_command (hello_command [0x61] [0x62]),
         call_t.next_handshake_command msg_t.init,
         call_t.next_handshake_command msg_t.init,
         call_t.process_handshake_command (hello_command [0x61] [0x62])]
      = [event_t.nothing,
         event_t.command ⟨[0x05, 0x45, 0x52, 0x52, 0x4F, 0x52, 0x03, 0x34, 0x30, 0x30]⟩,
         event_t.nothing, event_t.nothing]
      ∧ (process_handshake_command
          (world.new (session_base_t.new 0 [zap_reply_t.new [0x34, 0x30, 0x30]]))
          (hello_command [0x61] [0x62])).2.1.self.state = state_t.sending_error :=
  ⟨by decide,
   (hello_rejected_400
     (world.new (session_base_t.new 0 [zap_reply_t.new [0x34, 0x30, 0x30]]))
     (hello_command [0x61] [0x62]) msg_t.init [0x61] [0x62]
     (zap_reply_t.new [0x34, 0x30, 0x30]) [] []
     (by decide) (by decide) (by decide) (by decide) (by decide) (by decide)
     (by decide)).2.1⟩

/-- C18: for every HELLO that passes the framing checks on a server in
`waiting_for_hello` with a reachable authenticator, when the ZAP reply echoes
a request id different from the request's id, reply processing reports -1 with
`errno = EPROTO`, `process_hello` and `process_handshake_command` return -1,
the state stays `waiting_for_hello`, and the next `next_handshake_command`
returns -1 and writes no command: no WELCOME is produced. -/
theorem hello_wrong_request_id (w : world) (msg_ out : msg_t) (u p : List Byte)
    (reply : zap_reply_t) (inbox : List zap_reply_t)
    (hs : w.self.state = state_t.waiting_for_hello)
    (hf : process_hello_framing msg_ = some (u, p))
    (hc : w.session.zap_connect_rc = 0)
    (hi : w.session.zap_inbox = reply :: inbox)
    (hid : reply.request_id ≠ w.session.zap_request_id) :
    (receive_and_process_zap_reply (send_zap_request w u p)).1 = -1
      ∧ (receive_and_process_zap_reply (send_zap_request w u p)).2.errno = EPROTO
      ∧ (process_hello w msg_).1 = -1
      ∧ (process_handshake_command w msg_).1 = -1
      ∧ (process_handshake_command w msg_).2.1.self.state = state_t.waiting_for_hello
      ∧ next_handshake_command (process_handshake_command w msg_).2.1 out
          = some (-1, { (process_handshake_command w msg_).2.1 with errno := EAGAIN }, out) := by
  have hid2 : ¬ w.session.zap_request_id = reply.request_id := fun h => hid h.symm
  have hr : receive_and_process_zap_reply (send_zap_request w u p)
      = (-1, { send_zap_request w u p with
                session := { (send_zap_request w u p).session with zap_inbox := inbox },
                errno := EPROTO }) := by
    simp [send_zap_request, zap_client_send_zap_request, receive_and_process_zap_reply, hi,
      hid2]
  have hph : process_hello w msg_
      = (-1, { send_zap_request w u p with
                session := { (send_zap_request w u p).session with zap_inbox := inbox },
                errno := EPROTO }) := by
    simp [process_hello, hf, zap_connect, hc, hr]
  have hp := process_handshake_command_hello w msg_ hs
  refine ⟨by rw [hr], by rw [hr], by rw [hph], by rw [hp.1, hph], ?_, ?_⟩
  · rw [hp.2, hph]
    exact hs
  · have hst : (process_handshake_command w msg_).2.1.self.state
        = state_t.waiting_for_hello := by
      rw [hp.2, hph]
      exact hs
    simp [next_handshake_command, hst]

/-- Witness of C18: the reply echoes `"2"` for the request id `"1"`. -/
theorem hello_wrong_request_id_witness :
    (process_handshake_command
        (world.new (session_base_t.new 0
          [{ zap_reply_t.new [0x32, 0x30, 0x30] with request_id := [0x32] }]))
        (hello_command [0x61] [0x62])).1 = -1
      ∧ (process_handshake_command
        (world.new (session_base_t.new 0
          [{ zap_reply_t.new [0x32, 0x30, 0x30] with request_id := [0x32] }]))
        (hello_command [0x61] [0x62])).2.1.self.state = state_t.waiting_for_hello :=
  have h := hello_wrong_request_id
    (world.new (session_base_t.new 0
      [{ zap_reply_t.new [0x32, 0x30, 0x30] with request_id := [0x32] }]))
    (hello_command [0x61] [0x62]) msg_t.init [0x61] [0x62]
    { zap_reply_t.new [0x32, 0x30, 0x30] with request_id := [0x32] } []
    (by decide) (by decide) (by decide) (by decide) (by decide)
  ⟨h.2.2.2.1, h.2.2.2.2.1⟩

theorem process_hello_success_status (w : world) (msg_ : msg_t) (u p : List Byte)
    (reply : zap_reply_t) (inbox : List zap_reply_t) (props : List property_t)
    (hf : process_hello_framing msg_ = some (u, p))
    (hc : w.session.zap_connect_rc = 0)
    (hi : w.session.zap_inbox = reply :: inbox)
    (hv : reply.version = ZAP_VERSION)
    (hid : reply.request_id = w.session.zap_request_id)
    (hst : reply.status_code = [0x32, 0x30, 0x30])
    (hm : metadata_decode reply.metadata = some props) :
    (process_hello w msg_).1 = 0
      ∧ (process_hello w msg_).2.self.state = state_t.sending_welcome := by
  have h50 : ((50 : Byte) : Nat) = 50 := rfl
  have h48 : ((48 : Byte) : Nat) = 48 := rfl
  simp [process_hello, hf, zap_connect, hc, send_zap_request, zap_client_send_zap_request,
    receive_and_process_zap_reply, hi, hv, hid, hst, is_digit, parse_metadata, hm,
    handle_zap_status_code, zap_reply_ok_state, h50, h48]

theorem process_initiate_success (w : world) (msg_ : msg_t) (props : List property_t)
    (hn : 9 ≤ msg_.size)
    (ht : msg_.data.take 9 = [0x08, 0x49, 0x4E, 0x49, 0x54, 0x49, 0x41, 0x54, 0x45])
    (hd : metadata_decode (msg_.data.drop 9) = some props) :
    process_initiate w msg_
      = (0, { w with
              self := { w.self with zmtp_properties := props,
                                    state := state_t.sending_ready },
              parse_metadata_calls := w.parse_metadata_calls ++ [msg_.data.drop 9] }) := by
  have hcond : ¬ (msg_.size < 9 ∨ memcmp msg_.data INITIATE_literal 9 ≠ 0) := by
    rw [not_or, not_lt, not_not, memcmp_INITIATE_iff _ (by simpa [msg_t.size] using hn)]
    exact ⟨hn, ht⟩
  have htake : (msg_.data.drop 9).take (msg_.size - 9) = msg_.data.drop 9 := by
    apply List.take_of_length_le
    simp [msg_t.size]
  unfold process_initiate
  simp only [hcond, if_false]
  simp [parse_metadata, htake, hd]

theorem hello_authenticated_of_sending_welcome (w : world) (msg_ : msg_t)
    (hs : w.self.state = state_t.waiting_for_hello)
    (h : (process_hello w msg_).2.self.state = state_t.sending_welcome) :
    hello_authenticated w msg_ = true := by
  have hp := process_handshake_command_hello w msg_ hs
  rcases process_hello_outcome w msg_ with h1 | ⟨h0, hlen, reply, inbox, hi, hib, hsc, h1 | h1⟩
  · rw [h, hs] at h1
    exact absurd h1 (by decide)
  · unfold hello_authenticated
    simp only [hp.1, hp.2, hs, h0, hlen, hi, hib, hsc, h1.1, decide_True, Bool.and_self]
  · rw [h] at h1
    exact absurd h1.2 (by decide)

theorem next_handshake_command_sending_welcome (w : world) (msg_ : msg_t)
    (hs : w.self.state = state_t.sending_welcome) :
    next_handshake_command w msg_
      = some (0, set_state w state_t.waiting_for_initiate,
          ⟨[0x07, 0x57, 0x45, 0x4C, 0x43, 0x4F, 0x4D, 0x45]⟩) := by
  rcases next_handshake_command_cases w msg_ with h | h | h | h | h
  · exact h.2
  · rw [hs] at h; exact absurd h.1 (by decide)
  · rw [hs] at h; exact absurd h.1 (by decide)
  · rw [hs] at h; exact absurd h.1 (by decide)
  · rw [hs] at h
    rcases h.1 with h | h | h | h <;> exact absurd h (by decide)

theorem next_handshake_command_sending_ready (w : world) (msg_ : msg_t)
    (hs : w.self.state = state_t.sending_ready) :
    next_handshake_command w msg_
      = some (0, set_state w state_t.ready,
          ⟨[0x05, 0x52, 0x45, 0x41, 0x44, 0x59] ++ metadata_encode w.self.zmtp_properties⟩) := by
  rcases next_handshake_command_cases w msg_ with h | h | h | h | h
  · rw [hs] at h; exact absurd h.1 (by decide)
  · exact h.2
  · rw [hs] at h; exact absurd h.1 (by decide)
  · rw [hs] at h; exact absurd h.1 (by decide)
  · rw [hs] at h
    rcases h.1 with h | h | h | h <;> exact absurd h (by decide)

theorem process_handshake_command_consumed (w : world) (msg_ : msg_t)
    (h : (process_handshake_command w msg_).1 = 0) :
    (process_handshake_command w msg_).2.2 = msg_t.init := by
  unfold process_handshake_command at h ⊢
  simp only at h ⊢
  split
  · rfl
  · rename_i hne
    rw [if_neg hne] at h
    exact absurd h hne

/-- C16: happy path. Starting in `waiting_for_hello`, for every HELLO that
passes the framing checks and is accepted by ZAP with status `"200"`, and every
INITIATE whose metadata parses, the four calls
`process_handshake_command (HELLO)`, `next_handshake_command`,
`process_handshake_command (INITIATE)`, `next_handshake_command` all return 0,
the two commands emitted are WELCOME and then READY, both incoming messages
are consumed, and the final state is `ready`. -/
theorem happy_path (w : world) (hello o1 initiate o2 : msg_t) (u p : List Byte)
    (reply : zap_reply_t) (inbox : List zap_reply_t) (zprops props : List property_t)
    (hs : w.self.state = state_t.waiting_for_hello)
    (hf : process_hello_framing hello = some (u, p))
    (hc : w.session.zap_connect_rc = 0)
    (hi : w.session.zap_inbox = reply :: inbox)
    (hv : reply.version = ZAP_VERSION)
    (hid : reply.request_id = w.session.zap_request_id)
    (hst : reply.status_code = [0x32, 0x30, 0x30])
    (hm : metadata_decode reply.metadata = some zprops)
    (hn : 9 ≤ initiate.size)
    (ht : initiate.data.take 9 = [0x08, 0x49, 0x4E, 0x49, 0x54, 0x49, 0x41, 0x54, 0x45])
    (hd : metadata_decode (initiate.data.drop 9) = some props) :
    (process_handshake_command w hello).1 = 0
      ∧ (process_handshake_command w hello).2.2 = msg_t.init
      ∧ next_handshake_command (process_handshake_command w hello).2.1 o1
          = some (0,
              set_state (process_handshake_command w hello).2.1 state_t.waiting_for_initiate,
              ⟨[0x07, 0x57, 0x45, 0x4C, 0x43, 0x4F, 0x4D, 0x45]⟩)
      ∧ (process_handshake_command
          (set_state (process_handshake_command w hello).2.1 state_t.waiting_for_initiate)
          initiate).1 = 0
      ∧ (process_handshake_command
          (set_state (process_handshake_command w hello).2.1 state_t.waiting_for_initiate)
          initiate).2.2 = msg_t.init
      ∧ next_handshake_command
          (process_handshake_command
            (set_state (process_handshake_command w hello).2.1 state_t.waiting_for_initiate)
            initiate).2.1 o2
          = some (0,
              set_state
                (process_handshake_command
                  (set_state (process_handshake_command w hello).2.1
                    state_t.waiting_for_initiate)
                  initiate).2.1 state_t.ready,
              ⟨[0x05, 0x52, 0x45, 0x41, 0x44, 0x59] ++ metadata_encode props⟩)
      ∧ run w [call_t.process_handshake_command hello, call_t.next_handshake_command o1,
          call_t.process_handshake_command initiate, call_t.next_handshake_command o2]
          = [event_t.zap_success,
             event_t.command ⟨[0x07, 0x57, 0x45, 0x4C, 0x43, 0x4F, 0x4D, 0x45]⟩,
             event_t.nothing,
             event_t.command ⟨[0x05, 0x52, 0x45, 0x41, 0x44, 0x59] ++ metadata_encode props⟩] := by
  have hp := process_handshake_command_hello w hello hs
  obtain ⟨hrc, hse⟩ := process_hello_success_status w hello u p reply inbox zprops
    hf hc hi hv hid hst hm
  have h1 : (process_handshake_command w hello).1 = 0 := by rw [hp.1, hrc]
  have hW1 : (process_handshake_command w hello).2.1.self.state = state_t.sending_welcome := by
    rw [hp.2, hse]
  have h3 := next_handshake_command_sending_welcome (process_handshake_command w hello).2.1 o1 hW1
  have hpi := process_handshake_command_initiate
    (set_state (process_handshake_command w hello).2.1 state_t.waiting_for_initiate) initiate rfl
  have hin := process_initiate_success
    (set_state (process_handshake_command w hello).2.1 state_t.waiting_for_initiate) initiate
    props hn ht hd
  have h4 : (process_handshake_command
      (set_state (process_handshake_command w hello).2.1 state_t.waiting_for_initiate)
      initiate).1 = 0 := by
    rw [hpi.1, hin]
  have hW3 : (process_handshake_command
      (set_state (process_handshake_command w hello).2.1 state_t.waiting_for_initiate)
      initiate).2.1.self.state = state_t.sending_ready := by
    rw [hpi.2, hin]
  have hW3p : (process_handshake_command
      (set_state (process_handshake_command w hello).2.1 state_t.waiting_for_initiate)
      initiate).2.1.self.zmtp_properties = props := by
    rw [hpi.2, hin]
  have h6 := next_handshake_command_sending_ready _ o2 hW3
  rw [hW3p] at h6
  refine ⟨h1, process_handshake_command_consumed w hello h1, h3, h4,
    process_handshake_command_consumed _ initiate h4, h6, ?_⟩
  have ha : hello_authenticated w hello = true :=
    hello_authenticated_of_sending_welcome w hello hs hse
  have hna : hello_authenticated
      (set_state (process_handshake_command w hello).2.1 state_t.waiting_for_initiate)
      initiate = false :=
    hello_authenticated_other_state _ _ (by simp [set_state])
  simp only [run, step, ha, h3, hna, h6, if_true]
  simp

/-- Witness of C16: HELLO of user `"a"` with password `"b"`, status `"200"`,
INITIATE carrying the single property `A = [7, 8]`. -/
theorem happy_path_witness :
    run (world.new (session_base_t.new 0 [zap_reply_t.new [0x32, 0x30, 0x30]]))
        [call_t.process_handshake_command (hello_command [0x61] [0x62]),
         call_t.next_handshake_command msg_t.init,
         call_t.process_handshake_command
           ⟨[0x08, 0x49, 0x4E, 0x49, 0x54, 0x49, 0x41, 0x54, 0x45, 1, 0x41, 0, 0, 0, 2, 7, 8]⟩,
         call_t.next_handshake_command msg_t.init]
      = [event_t.zap_success,
         event_t.command ⟨[0x07, 0x57, 0x45, 0x4C, 0x43, 0x4F, 0x4D, 0x45]⟩,
         event_t.nothing,
         event_t.command
           ⟨[0x05, 0x52, 0x45, 0x41, 0x44, 0x59] ++ metadata_encode [([0x41], [7, 8])]⟩] :=
  (happy_path (world.new (session_base_t.new 0 [zap_reply_t.new [0x32, 0x30, 0x30]]))
    (hello_command [0x61] [0x62]) msg_t.init
    ⟨[0x08, 0x49, 0x4E, 0x49, 0x54, 0x49, 0x41, 0x54, 0x45, 1, 0x41, 0, 0, 0, 2, 7, 8]⟩
    msg_t.init [0x61] [0x62] (zap_reply_t.new [0x32, 0x30, 0x30]) [] [] [([0x41], [7, 8])]
    (by decide) (by decide) (by decide) (by decide) (by decide) (by decide) (by decide)
    (by decide) (by decide) (by decide) (by decide)).2.2.2.2.2.2

theorem get_uint32_lt (b : List Byte) : get_uint32 b < 4294967296 := by
  have h0 := (b.getD 0 0).isLt
  have h1 := (b.getD 1 0).isLt
  have h2 := (b.getD 2 0).isLt
  have h3 := (b.getD 3 0).isLt
  unfold get_uint32
  omega

theorem get_uint32_put_uint32 (n : Nat) (rest : List Byte) (h : n < 4294967296) :
    get_uint32 (put_uint32 n ++ rest) = n := by
  simp [get_uint32, put_uint32, byte_of_nat]
  omega

theorem metadata_decode_fuel_valid : ∀ (fuel : Nat) (b : List Byte) (props : List property_t),
    metadata_decode_fuel fuel b = some props → ∀ q ∈ props, valid_property q := by
  intro fuel
  induction fuel with
  | zero => intro b props h; simp [metadata_decode_fuel] at h
  | succ fuel ih =>
    intro b props h
    cases b with
    | nil =>
      simp only [metadata_decode_fuel, Option.some.injEq] at h
      subst h
      intro q hq
      simp at hq
    | cons n ptr =>
      simp only [metadata_decode_fuel] at h
      split at h
      · exact Option.noConfusion h
      · rename_i hc1
        split at h
        · exact Option.noConfusion h
        · split at h
          · exact Option.noConfusion h
          · rename_i hc3
            split at h
            · exact Option.noConfusion h
            · rename_i rest hrest
              simp only [Option.some.injEq] at h
              subst h
              intro q hq
              rcases List.mem_cons.mp hq with hq | hq
              · subst hq
                have hn := n.isLt
                have hg := get_uint32_lt (List.drop n.val ptr)
                simp only [valid_property, List.length_take]
                omega
              · exact ih _ _ hrest q hq

theorem metadata_encode_length (props : List property_t) :
    props.length ≤ (metadata_encode props).length := by
  induction props with
  | nil => simp
  | cons q rest ih =>
    obtain ⟨name, value⟩ := q
    simp only [metadata_encode, List.length_cons, List.length_append, List.cons_append]
    omega

theorem metadata_decode_fuel_encode : ∀ (props : List property_t),
    (∀ q ∈ props, valid_property q) → ∀ fuel, props.length < fuel →
    metadata_decode_fuel fuel (metadata_encode props) = some props := by
  intro props
  induction props with
  | nil =>
    intro _ fuel hf
    cases fuel with
    | zero => simp at hf
    | succ fuel => simp [metadata_encode, metadata_decode_fuel]
  | cons q rest ih =>
    intro hv fuel hf
    obtain ⟨name, value⟩ := q
    cases fuel with
    | zero => simp at hf
    | succ fuel =>
      have hq : valid_property (name, value) := hv _ (List.mem_cons_self _ _)
      have hn1 : 1 ≤ name.length := hq.1
      have hn2 : name.length ≤ 255 := hq.2.1
      have hv1 : value.length < 4294967296 := hq.2.2
      have hrest := ih (fun q hq => hv q (List.mem_cons_of_mem _ hq)) fuel
        (by simpa using hf)
      have hbn : (byte_of_nat name.length).val = name.length := byte_of_nat_val _ hn2
      have hne : name.length ≠ 0 := by omega
      have hg : get_uint32 (put_uint32 value.length ++ (value ++ metadata_encode rest))
          = value.length := get_uint32_put_uint32 _ _ hv1
      have hpl : (put_uint32 value.length).length = 4 := rfl
      simp only [metadata_encode, List.cons_append, metadata_decode_fuel, hbn,
        List.append_assoc, List.drop_left, List.take_left, hg]
      simp [hne, hpl, hg, hrest]

theorem metadata_decode_encode (b : List Byte) (props : List property_t)
    (h : metadata_decode b = some props) :
    metadata_decode (metadata_encode props) = some props :=
  metadata_decode_fuel_encode props (metadata_decode_fuel_valid _ b props h) _
    (Nat.lt_succ_of_le (metadata_encode_length props))

/-- C17: for every INITIATE accepted in state `waiting_for_initiate` whose
metadata block decodes to the properties `props`, the next
`next_handshake_command` returns 0 with a READY command: the tag
`"\5READY"` followed by a metadata block that decodes back to `props`. -/
theorem ready_metadata_round_trip (w : world) (initiate out : msg_t)
    (props : List property_t)
    (hs : w.self.state = state_t.waiting_for_initiate)
    (hn : 9 ≤ initiate.size)
    (ht : initiate.data.take 9 = [0x08, 0x49, 0x4E, 0x49, 0x54, 0x49, 0x41, 0x54, 0x45])
    (hd : metadata_decode (initiate.data.drop 9) = some props) :
    (process_handshake_command w initiate).1 = 0
      ∧ (next_handshake_command (process_handshake_command w initiate).2.1 out).map
          (fun r => (r.1, r.2.2.data.take 6, metadata_decode (r.2.2.data.drop 6)))
        = some (0, [0x05, 0x52, 0x45, 0x41, 0x44, 0x59], some props) := by
  have hpi := process_handshake_command_initiate w initiate hs
  have hin := process_initiate_success w initiate props hn ht hd
  have hst : (process_handshake_command w initiate).2.1.self.state
      = state_t.sending_ready := by
    rw [hpi.2, hin]
  have hpr : (process_handshake_command w initiate).2.1.self.zmtp_properties = props := by
    rw [hpi.2, hin]
  refine ⟨by rw [hpi.1, hin], ?_⟩
  rw [next_handshake_command_sending_ready _ out hst, hpr]
  simp [metadata_decode_encode _ props hd]

/-- Witness of C17: INITIATE carrying the single property `A = [7, 8]`. -/
theorem ready_metadata_round_trip_witness :
    (next_handshake_command
        (process_handshake_command
          (set_state (world.new (session_base_t.new 0 [])) state_t.waiting_for_initiate)
          ⟨[0x08, 0x49, 0x4E, 0x49, 0x54, 0x49, 0x41, 0x54, 0x45,
            1, 0x41, 0, 0, 0, 2, 7, 8]⟩).2.1
        msg_t.init).map
          (fun r => (r.1, r.2.2.data.take 6, metadata_decode (r.2.2.data.drop 6)))
      = some (0, [0x05, 0x52, 0x45, 0x41, 0x44, 0x59], some [([0x41], [7, 8])]) :=
  (ready_metadata_round_trip
    (set_state (world.new (session_base_t.new 0 [])) state_t.waiting_for_initiate)
    ⟨[0x08, 0x49, 0x4E, 0x49, 0x54, 0x49, 0x41, 0x54, 0x45, 1, 0x41, 0, 0, 0, 2, 7, 8]⟩
    msg_t.init [([0x41], [7, 8])] (by decide) (by decide) (by decide) (by decide)).2

/-! ## The HELLO parser as a bijection, and the order of validation and ZAP -/

theorem hello_command_data (u p : List Byte) :
    (hello_command u p).data
      = HELLO_tag ++ byte_of_nat u.length :: u ++ byte_of_nat p.length :: p := by
  simp [hello_command, HELLO_literal, HELLO_tag]

theorem process_hello_framing_iff (b u p : List Byte) :
    process_hello_framing ⟨b⟩ = some (u, p)
      ↔ u.length ≤ 255 ∧ p.length ≤ 255 ∧ b = (hello_command u p).data := by
  constructor
  · intro h
    obtain ⟨hu, hp, hb⟩ := process_hello_framing_some b u p h
    exact ⟨hu, hp, by rw [hb, hello_command_data]⟩
  · rintro ⟨hu, hp, hb⟩
    rw [hb]
    exact process_hello_framing_hello_command u p hu hp

/-- C26: the framing checks of `process_hello` accept a buffer `b` with the
reading `(u, p)` if and only if `u` and `p` have at most 255 bytes and
`b = "\x05HELLO" ++ [len u] ++ u ++ [len p] ++ p`; hence a buffer is accepted
if and only if it has that form for some such `u` and `p`, two accepted
buffers with the same credentials are equal, and one buffer has one reading
only. -/
theorem process_hello_framing_bijective (b b2 u p u2 p2 : List Byte) :
    (process_hello_framing ⟨b⟩ = some (u, p)
        ↔ u.length ≤ 255 ∧ p.length ≤ 255
          ∧ b = [0x05, 0x48, 0x45, 0x4C, 0x4C, 0x4F] ++ [byte_of_nat u.length] ++ u
                  ++ [byte_of_nat p.length] ++ p)
      ∧ ((process_hello_framing ⟨b⟩).isSome = true
        ↔ ∃ u3 p3 : List Byte, u3.length ≤ 255 ∧ p3.length ≤ 255
          ∧ b = [0x05, 0x48, 0x45, 0x4C, 0x4C, 0x4F] ++ [byte_of_nat u3.length] ++ u3
                  ++ [byte_of_nat p3.length] ++ p3)
      ∧ (process_hello_framing ⟨b⟩ = some (u, p) → process_hello_framing ⟨b2⟩ = some (u, p) →
          b = b2)
      ∧ (process_hello_framing ⟨b⟩ = some (u, p) → process_hello_framing ⟨b⟩ = some (u2, p2) →
          u = u2 ∧ p = p2) := by
  have hform : ∀ x y : List Byte,
      [0x05, 0x48, 0x45, 0x4C, 0x4C, 0x4F] ++ [byte_of_nat x.length] ++ x
          ++ [byte_of_nat y.length] ++ y = (hello_command x y).data := by
    intro x y
    simp [hello_command, HELLO_literal]
  refine ⟨?_, ?_, ?_, ?_⟩
  · rw [hform]
    exact process_hello_framing_iff b u p
  · constructor
    · intro h
      obtain ⟨c, hc⟩ := Option.isSome_iff_exists.mp h
      obtain ⟨x, y⟩ := c
      obtain ⟨hx, hy, hb⟩ := (process_hello_framing_iff b x y).mp hc
      exact ⟨x, y, hx, hy, by rw [hform]; exact hb⟩
    · rintro ⟨x, y, hx, hy, hb⟩
      rw [hform] at hb
      rw [(process_hello_framing_iff b x y).mpr ⟨hx, hy, hb⟩]
      rfl
  · intro h1 h2
    rw [((process_hello_framing_iff b u p).mp h1).2.2,
      ((process_hello_framing_iff b2 u p).mp h2).2.2]
  · intro h1 h2
    rw [h1] at h2
    simp only [Option.some.injEq, Prod.mk.injEq] at h2
    exact h2

/-- C27: validation precedes authentication. For every HELLO buffer that
fails a framing check, `process_hello` returns -1 with `errno = EPROTO`; the
session is as before, so no ZAP request was written and no ZAP reply was read;
and the outcome is the same on any other session `s2`, so the result of
`zap_connect` was never asked for. -/
theorem process_hello_validation_first (w : world) (s2 : session_base_t) (msg_ : msg_t)
    (h : process_hello_framing msg_ = none) :
    process_hello w msg_ = (-1, { w with errno := EPROTO })
      ∧ (process_hello w msg_).2.session = w.session
      ∧ (process_hello w msg_).2.session.zap_sent = w.session.zap_sent
      ∧ (process_hello w msg_).2.session.zap_inbox = w.session.zap_inbox
      ∧ (process_hello { w with session := s2 } msg_).1 = (process_hello w msg_).1
      ∧ (process_hello { w with session := s2 } msg_).2.self = (process_hello w msg_).2.self
      ∧ (process_hello { w with session := s2 } msg_).2.session = s2 := by
  have h1 : ∀ v : world, process_hello v msg_ = (-1, { v with errno := EPROTO }) := by
    intro v
    simp [process_hello, h]
  rw [h1 w, h1 { w with session := s2 }]
  exact ⟨rfl, rfl, rfl, rfl, rfl, rfl, rfl⟩

/-- Witness of C27: a HELLO whose username is cut short, on a server whose
authenticator would accept, and on one without authenticator. -/
theorem process_hello_validation_first_witness :
    process_hello (world.new (session_base_t.new 0 [zap_reply_t.new [0x32, 0x30, 0x30]]))
        ⟨[0x05, 0x48, 0x45, 0x4C, 0x4C, 0x4F, 5, 0x61]⟩
      = (-1, { world.new (session_base_t.new 0 [zap_reply_t.new [0x32, 0x30, 0x30]]) with
               errno := EPROTO })
      ∧ (process_hello
          { world.new (session_base_t.new 0 [zap_reply_t.new [0x32, 0x30, 0x30]]) with
            session := session_base_t.new (-1) [] }
          ⟨[0x05, 0x48, 0x45, 0x4C, 0x4C, 0x4F, 5, 0x61]⟩).2.session
        = session_base_t.new (-1) [] :=
  have h := process_hello_validation_first
    (world.new (session_base_t.new 0 [zap_reply_t.new [0x32, 0x30, 0x30]]))
    (session_base_t.new (-1) []) ⟨[0x05, 0x48, 0x45, 0x4C, 0x4C, 0x4F, 5, 0x61]⟩ (by decide)
  ⟨h.1, h.2.2.2.2.2.2⟩

theorem process_hello_eq_zero_iff (w : world) (msg_ : msg_t) :
    (process_hello w msg_).1 = 0
      ↔ ∃ u p : List Byte, process_hello_framing msg_ = some (u, p)
          ∧ w.session.zap_connect_rc = 0
          ∧ (receive_and_process_zap_reply (send_zap_request w u p)).1 ≠ -1 := by
  unfold process_hello
  cases hf : process_hello_framing msg_ with
  | none => simp
  | some c =>
    obtain ⟨u, p⟩ := c
    simp only [zap_connect, Option.some.injEq, Prod.mk.injEq]
    by_cases hc : w.session.zap_connect_rc = 0
    · simp only [hc, ne_eq, not_true_eq_false, if_false]
      constructor
      · intro h
        refine ⟨u, p, ⟨rfl, rfl⟩, trivial, ?_⟩
        intro hr
        rw [if_pos hr] at h
        exact absurd h (by decide)
      · rintro ⟨u3, p3, ⟨rfl, rfl⟩, _, hr⟩
        rw [if_neg hr]
    · simp only [ne_eq, hc, not_false_eq_true, if_true]
      constructor
      · intro h
        exact absurd h (by decide)
      · rintro ⟨_, _, _, h, _⟩
        exact h.elim

/-- C29: `process_hello` returns 0 if and only if the buffer passes all framing
checks, `zap_connect` returns 0, and `receive_and_process_zap_reply` returns a
value other than -1 (first world, any message); it returns 0 or -1 only. On a
second world whose ZAP reply is valid and carries a `3xx`, `4xx` or `5xx`
status, `process_hello` succeeds and the state is `sending_error`. -/
theorem process_hello_success_iff (w v : world) (msg_ hello : msg_t) (u p : List Byte)
    (reply : zap_reply_t) (inbox : List zap_reply_t) (d0 d1 d2 : Byte)
    (hf : process_hello_framing hello = some (u, p))
    (hc : v.session.zap_connect_rc = 0)
    (hi : v.session.zap_inbox = reply :: inbox)
    (hv : reply.version = ZAP_VERSION)
    (hid : reply.request_id = v.session.zap_request_id)
    (hst : reply.status_code = [d0, d1, d2])
    (h0 : 0x33 ≤ d0.val ∧ d0.val ≤ 0x35) (h1 : is_digit d1 = true) (h2 : is_digit d2 = true) :
    ((process_hello w msg_).1 = 0
        ↔ ∃ u3 p3 : List Byte, process_hello_framing msg_ = some (u3, p3)
            ∧ w.session.zap_connect_rc = 0
            ∧ (receive_and_process_zap_reply (send_zap_request w u3 p3)).1 ≠ -1)
      ∧ ((process_hello w msg_).1 = 0 ∨ (process_hello w msg_).1 = -1)
      ∧ (receive_and_process_zap_reply (send_zap_request v u p)).1 = 0
      ∧ (process_hello v hello).1 = 0
      ∧ (process_hello v hello).2.self.state = state_t.sending_error
      ∧ (process_hello v hello).2.self.status_code = [d0, d1, d2] := by
  have hfs := process_hello_failure_status v hello u p reply inbox d0 d1 d2 hf hc hi hv hid hst
    h0 h1 h2
  refine ⟨process_hello_eq_zero_iff w msg_, process_hello_rc w msg_, ?_, hfs⟩
  have hne : d0 ≠ 0x32 := by
    intro h
    rw [h] at h0
    exact absurd h0.1 (by decide)
  have hge : 0x32 ≤ d0.val := by omega
  simp [send_zap_request, zap_client_send_zap_request, receive_and_process_zap_reply, hi, hv,
    hid, hst, h1, h2, hne, hge, h0.2]

/-- Witness of C29: one HELLO of user `"a"` with password `"b"` on a server
whose authenticator has not answered (reply processing reports 1, and
`process_hello` reports 0), and the same HELLO answered with `"500"`. -/
theorem process_hello_success_iff_witness :
    (receive_and_process_zap_reply
        (send_zap_request (world.new (session_base_t.new 0 [])) [0x61] [0x62])).1 = 1
      ∧ (process_hello (world.new (session_base_t.new 0 [])) (hello_command [0x61] [0x62])).1
          = 0
      ∧ (process_hello (world.new (session_base_t.new 0 [zap_reply_t.new [0x35, 0x30, 0x30]]))
          (hello_command [0x61] [0x62])).1 = 0
      ∧ (process_hello (world.new (session_base_t.new 0 [zap_reply_t.new [0x35, 0x30, 0x30]]))
          (hello_command [0x61] [0x62])).2.self.state = state_t.sending_error :=
  have h := process_hello_success_iff (world.new (session_base_t.new 0 []))
    (world.new (session_base_t.new 0 [zap_reply_t.new [0x35, 0x30, 0x30]]))
    (hello_command [0x61] [0x62]) (hello_command [0x61] [0x62]) [0x61] [0x62]
    (zap_reply_t.new [0x35, 0x30, 0x30]) [] 0x35 0x30 0x30
    (by decide) (by decide) (by decide) (by decide) (by decide) (by decide) (by decide)
    (by decide) (by decide)
  ⟨by decide, h.1.mpr ⟨[0x61], [0x62], by decide, by decide, by decide⟩, h.2.2.2.1,
    h.2.2.2.2.1⟩

/-- C30: in state `sending_ready`, `next_handshake_command` returns 0, the
command is the one `make_command_with_basic_properties (msg_, "\5READY", 6)`
builds: its first 6 bytes are `"\x05READY"` and the rest is the metadata
block; the state becomes `ready` and nothing else changes. -/
theorem next_handshake_command_ready (w : world) (msg_ : msg_t)
    (hs : w.self.state = state_t.sending_ready) :
    next_handshake_command w msg_
        = some (0, set_state w state_t.ready,
            make_command_with_basic_properties w.self READY_literal 6)
      ∧ (make_command_with_basic_properties w.self READY_literal 6).data.take 6
          = [0x05, 0x52, 0x45, 0x41, 0x44, 0x59]
      ∧ (make_command_with_basic_properties w.self READY_literal 6).data.drop 6
          = metadata_encode w.self.zmtp_properties
      ∧ (set_state w state_t.ready).self.state = state_t.ready := by
  refine ⟨?_, ?_, ?_, rfl⟩
  · rw [next_handshake_command_sending_ready w msg_ hs]
    simp [make_command_with_basic_properties, READY_literal]
  · simp [make_command_with_basic_properties, READY_literal]
  · simp [make_command_with_basic_properties, READY_literal]

/-- Witness of C30: a server in `sending_ready` that holds the property
`A = [7, 8]`. -/
theorem next_handshake_command_ready_witness :
    next_handshake_command
        { self := { state := state_t.sending_ready, status_code := [], user_id := [],
                    zap_properties := [], zmtp_properties := [([0x41], [7, 8])] },
          session := session_base_t.new 0 [], errno := 0, parse_metadata_calls := [] }
        msg_t.init
      = some (0,
          { self := { state := state_t.ready, status_code := [], user_id := [],
                      zap_properties := [], zmtp_properties := [([0x41], [7, 8])] },
            session := session_base_t.new 0 [], errno := 0, parse_metadata_calls := [] },
          ⟨[0x05, 0x52, 0x45, 0x41, 0x44, 0x59, 1, 0x41, 0, 0, 0, 2, 7, 8]⟩) :=
  (next_handshake_command_ready
    { self := { state := state_t.sending_ready, status_code := [], user_id := [],
                zap_properties := [], zmtp_properties := [([0x41], [7, 8])] },
      session := session_base_t.new 0 [], errno := 0, parse_metadata_calls := [] }
    msg_t.init (by decide)).1

/-! ## Memory safety of the two parsers -/

theorem headD_drop (l : List Byte) (n : Nat) (d : Byte) : (l.drop n).headD d = l.getD n d := by
  induction l generalizing n with
  | nil => simp
  | cons a t ih =>
    cases n with
    | zero => simp
    | succ n => simp [ih]

theorem process_hello_framing_traced_fst (msg_ : msg_t) :
    (process_hello_framing_traced msg_).1 = process_hello_framing msg_ := by
  unfold process_hello_framing_traced process_hello_framing
  simp only [List.drop_zero, Nat.zero_add, headD_drop, List.drop_drop]
  by_cases h1 : msg_.size < 6
  · simp [h1]
  · by_cases h2 : memcmp msg_.data HELLO_literal 6 ≠ 0
    · simp [h1, h2]
    · simp only [h1, h2, if_false, false_or]
      split
      · rfl
      · split
        · rfl
        · split
          · rfl
          · split
            · rfl
            · split
              · rfl
              · simp [Nat.add_comm]

theorem process_hello_framing_traced_safe (msg_ : msg_t) :
    ∀ a ∈ (process_hello_framing_traced msg_).2, access_t.safe msg_.size a := by
  unfold process_hello_framing_traced
  simp only [Nat.zero_add]
  split
  · simp
  · rename_i h1
    split
    · simp only [List.mem_singleton, forall_eq, access_t.safe]
      intro i _ hi
      omega
    · split
      · simp only [List.mem_cons, List.mem_singleton, forall_eq_or_imp, forall_eq,
          access_t.safe, List.not_mem_nil, false_imp_iff, implies_true, and_true]
        refine ⟨?_, ?_⟩
        · intro i _ hi; omega
        · omega
      · rename_i h3
        split
        · simp only [List.mem_append, List.mem_cons, List.mem_singleton, List.not_mem_nil,
            or_false, access_t.safe]
          rintro a ((rfl | rfl) | rfl | rfl)
          · intro i _ hi; omega
          · show 6 ≤ msg_.size; omega
          · intro i _ hi; omega
          · show 1 ≤ msg_.size - 6; omega
        · rename_i h4
          split
          · simp only [List.mem_append, List.mem_cons, List.mem_singleton, List.not_mem_nil,
              or_false, access_t.safe]
            rintro a (((rfl | rfl) | rfl | rfl) | rfl | rfl)
            · intro i _ hi; omega
            · show 6 ≤ msg_.size; omega
            · intro i _ hi; omega
            · show 1 ≤ msg_.size - 6; omega
            · intro i _ hi; omega
            · show _ ≤ msg_.size - 6 - 1; omega
          · rename_i h5
            split
            · simp only [List.mem_append, List.mem_cons, List.mem_singleton,
                List.not_mem_nil, or_false, access_t.safe]
              rintro a ((((rfl | rfl) | rfl | rfl) | rfl | rfl) | rfl | rfl)
              · intro i _ hi; omega
              · show 6 ≤ msg_.size; omega
              · intro i _ hi; omega
              · show 1 ≤ msg_.size - 6; omega
              · intro i _ hi; omega
              · show _ ≤ msg_.size - 6 - 1; omega
              · intro i _ hi; omega
              · show 1 ≤ msg_.size - 6 - 1 - _; omega
            · rename_i h6
              have hall : ∀ a ∈ [access_t.read 0 6, access_t.sub msg_.size 6]
                  ++ [access_t.read 6 1, access_t.sub (msg_.size - 6) 1]
                  ++ [access_t.read (6 + 1) (msg_.data.getD 6 0).val,
                      access_t.sub (msg_.size - 6 - 1) (msg_.data.getD 6 0).val]
                  ++ [access_t.read (6 + 1 + (msg_.data.getD 6 0).val) 1,
                      access_t.sub (msg_.size - 6 - 1 - (msg_.data.getD 6 0).val) 1]
                  ++ [access_t.read (6 + 1 + (msg_.data.getD 6 0).val + 1)
                        (msg_.data.getD (6 + 1 + (msg_.data.getD 6 0).val) 0).val,
                      access_t.sub (msg_.size - 6 - 1 - (msg_.data.getD 6 0).val - 1)
                        (msg_.data.getD (6 + 1 + (msg_.data.getD 6 0).val) 0).val],
                  access_t.safe msg_.size a := by
                simp only [List.mem_append, List.mem_cons, List.mem_singleton,
                  List.not_mem_nil, or_false, access_t.safe]
                rintro a (((((rfl | rfl) | rfl | rfl) | rfl | rfl) | rfl | rfl) | rfl | rfl)
                · intro i _ hi; omega
                · show 6 ≤ msg_.size; omega
                · intro i _ hi; omega
                · show 1 ≤ msg_.size - 6; omega
                · intro i _ hi; omega
                · show _ ≤ msg_.size - 6 - 1; omega
                · intro i _ hi; omega
                · show 1 ≤ msg_.size - 6 - 1 - _; omega
                · intro i _ hi; omega
                · show _ ≤ msg_.size - 6 - 1 - _ - 1; omega
              split <;> exact hall

theorem process_initiate_traced_fst (w : world) (msg_ : msg_t) :
    (process_initiate_traced w msg_).1 = process_initiate w msg_ := by
  unfold process_initiate_traced process_initiate
  by_cases h1 : msg_.size < 9
  · simp [h1]
  · by_cases h2 : memcmp msg_.data INITIATE_literal 9 ≠ 0
    · simp [h1, h2]
    · simp only [h1, h2, if_false, false_or]
      split <;> rfl

theorem process_initiate_traced_safe (w : world) (msg_ : msg_t) :
    ∀ a ∈ (process_initiate_traced w msg_).2, access_t.safe msg_.size a := by
  unfold process_initiate_traced
  simp only
  split
  · simp
  · rename_i h1
    have h9 : ∀ a ∈ [access_t.read 0 9, access_t.sub msg_.size 9,
        access_t.read 9 (msg_.size - 9)], access_t.safe msg_.size a := by
      simp only [List.mem_cons, List.mem_singleton, List.not_mem_nil, or_false]
      rintro a (rfl | rfl | rfl)
      · intro i _ hi; omega
      · show 9 ≤ msg_.size; omega
      · intro i _ hi; omega
    split
    · simp only [List.mem_singleton, forall_eq, access_t.safe]
      intro i _ hi
      omega
    · split <;> exact h9

/-- C28: for every input buffer of any size, the empty one included,
`process_hello` and `process_initiate` (the traced parsers, which compute what
the plain ones compute) only read bytes at offsets strictly below the buffer
size, and none of their subtractions on `bytes_left` (minus 6, minus 1, minus
`username_length`, minus `password_length`, minus 9) has a subtrahend larger
than `bytes_left`. -/
theorem parsers_stay_in_bounds (w : world) (msg_ : msg_t) :
    (process_hello_framing_traced msg_).1 = process_hello_framing msg_
      ∧ (∀ a ∈ (process_hello_framing_traced msg_).2, access_t.safe msg_.size a)
      ∧ (process_initiate_traced w msg_).1 = process_initiate w msg_
      ∧ (∀ a ∈ (process_initiate_traced w msg_).2, access_t.safe msg_.size a)
      ∧ (process_hello_framing_traced ⟨[]⟩).2 = []
      ∧ (process_initiate_traced w ⟨[]⟩).2 = [] :=
  ⟨process_hello_framing_traced_fst msg_, process_hello_framing_traced_safe msg_,
    process_initiate_traced_fst w msg_, process_initiate_traced_safe w msg_, rfl, rfl⟩

/-! ## The CURVE server, modelled from the specification -/

theorem curve_process_hello_zap_sent (env : curve_env_t) (w : curve_world) (msg_ : msg_t) :
    (curve_process_hello env w msg_).2.base.session = w.base.session := by
  unfold curve_process_hello
  repeat (any_goals split)
  all_goals rfl

theorem curve_process_hello_failure (env : curve_env_t) (w : curve_world) (msg_ : msg_t) :
    curve_process_hello env w msg_
        = (0, { w with base := set_state w.base state_t.sending_welcome })
      ∨ curve_process_hello env w msg_
        = curve_fail w handshake_failure_t.HANDSHAKE_FAILED_ZMTP
      ∨ curve_process_hello env w msg_
        = curve_fail w handshake_failure_t.HANDSHAKE_FAILED_ENCRYPTION := by
  unfold curve_process_hello
  split
  · exact Or.inr (Or.inl rfl)
  · split
    · exact Or.inr (Or.inl rfl)
    · split
      · exact Or.inr (Or.inl rfl)
      · split
        · exact Or.inr (Or.inr rfl)
        · exact Or.inl rfl

/-- C22: the CURVE server rejects every HELLO command whose size differs from
200 bytes (the 6-byte tag and the 194-byte payload) as a framing error:
`process_hello` returns -1, reports `HANDSHAKE_FAILED_ZMTP` with `EPROTO`, and
the state is unchanged. -/
theorem curve_hello_wrong_length (env : curve_env_t) (w : curve_world) (msg_ : msg_t)
    (h : msg_.size ≠ 200) :
    curve_process_hello env w msg_ = curve_fail w handshake_failure_t.HANDSHAKE_FAILED_ZMTP
      ∧ (curve_process_hello env w msg_).1 = -1
      ∧ (curve_process_hello env w msg_).2.base.errno = EPROTO
      ∧ (curve_process_hello env w msg_).2.events
          = w.events ++ [(handshake_failure_t.HANDSHAKE_FAILED_ZMTP, EPROTO)]
      ∧ (curve_process_hello env w msg_).2.base.self.state = w.base.self.state := by
  have hr : curve_process_hello env w msg_
      = curve_fail w handshake_failure_t.HANDSHAKE_FAILED_ZMTP := by
    unfold curve_process_hello
    split
    · rfl
    · rfl
  rw [hr]
  exact ⟨rfl, rfl, rfl, rfl, rfl⟩

/-- Witness of C22: the 5 bytes `HELLO` the test sends as a command. -/
theorem curve_hello_wrong_length_witness :
    curve_process_hello curve_env_t.sample (curve_world.new (session_base_t.new 0 []))
        ⟨[0x48, 0x45, 0x4C, 0x4C, 0x4F]⟩
      = curve_fail (curve_world.new (session_base_t.new 0 []))
          handshake_failure_t.HANDSHAKE_FAILED_ZMTP :=
  (curve_hello_wrong_length curve_env_t.sample (curve_world.new (session_base_t.new 0 []))
    ⟨[0x48, 0x45, 0x4C, 0x4C, 0x4F]⟩ (by decide)).1

/-- C23: the CURVE server rejects a HELLO command whose version differs from
the implemented one as a framing error, whatever the rest of the command
holds, so also when it is correct in every other respect: `process_hello`
returns -1 and reports `HANDSHAKE_FAILED_ZMTP` with `EPROTO`; the verdict of
the signature block is not involved. -/
theorem curve_hello_wrong_version (env : curve_env_t) (w : curve_world) (msg_ : msg_t)
    (hver : (msg_.data.drop 6).take env.version.length ≠ env.version) :
    curve_process_hello env w msg_ = curve_fail w handshake_failure_t.HANDSHAKE_FAILED_ZMTP
      ∧ (curve_process_hello env w msg_).1 = -1
      ∧ (curve_process_hello env w msg_).2.base.errno = EPROTO
      ∧ (curve_process_hello env w msg_).2.events
          = w.events ++ [(handshake_failure_t.HANDSHAKE_FAILED_ZMTP, EPROTO)] := by
  have hr : curve_process_hello env w msg_
      = curve_fail w handshake_failure_t.HANDSHAKE_FAILED_ZMTP := by
    unfold curve_process_hello
    split
    · rfl
    · split
      · rfl
      · rfl
  rw [hr]
  exact ⟨rfl, rfl, rfl, rfl⟩

/-- Witness of C23: a 200-byte HELLO with the right tag whose byte 6 is 2,
where the implemented version is `1.0` and the signature block authenticates. -/
theorem curve_hello_wrong_version_witness :
    (msg_t.mk ([0x05, 0x48, 0x45, 0x4C, 0x4C, 0x4F, 2, 0] ++ List.replicate 192 0)).size = 200
      ∧ curve_env_t.sample.open_hello
          ([0x05, 0x48, 0x45, 0x4C, 0x4C, 0x4F, 2, 0] ++ List.replicate 192 0) = true
      ∧ curve_process_hello curve_env_t.sample (curve_world.new (session_base_t.new 0 []))
          ⟨[0x05, 0x48, 0x45, 0x4C, 0x4C, 0x4F, 2, 0] ++ List.replicate 192 0⟩
        = curve_fail (curve_world.new (session_base_t.new 0 []))
            handshake_failure_t.HANDSHAKE_FAILED_ZMTP :=
  ⟨by simp only [msg_t.size, List.length_append, List.length_cons, List.length_nil,
      List.length_replicate],
   rfl,
   (curve_hello_wrong_version curve_env_t.sample (curve_world.new (session_base_t.new 0 []))
    ⟨[0x05, 0x48, 0x45, 0x4C, 0x4C, 0x4F, 2, 0] ++ List.replicate 192 0⟩ (by decide)).1⟩

/-- C24: when a CURVE handshake step fails at the framing or the encryption
level, no ZAP request is sent. `process_hello` never touches the session,
whatever the command (a client that does not speak CURVE); and when the
framing checks or the decryption of INITIATE fail with category `e`,
`process_initiate` returns -1, reports `e` with `EPROTO` and leaves the
session as it was: with no request sent before, the count stays 0. -/
theorem curve_no_zap_request_on_failure (env : curve_env_t) (w : curve_world)
    (hello initiate : msg_t) (e : handshake_failure_t)
    (hz : w.base.session.zap_sent = [])
    (he : curve_initiate_open env initiate = Except.error e) :
    (curve_process_hello env w hello).2.base.session.zap_sent.length = 0
      ∧ ((curve_process_hello env w hello).1 = 0
        ∨ (curve_process_hello env w hello).2.events
            = w.events ++ [(handshake_failure_t.HANDSHAKE_FAILED_ZMTP, EPROTO)]
        ∨ (curve_process_hello env w hello).2.events
            = w.events ++ [(handshake_failure_t.HANDSHAKE_FAILED_ENCRYPTION, EPROTO)])
      ∧ curve_process_initiate env w initiate = curve_fail w e
      ∧ (curve_process_initiate env w initiate).1 = -1
      ∧ (curve_process_initiate env w initiate).2.events = w.events ++ [(e, EPROTO)]
      ∧ (curve_process_initiate env w initiate).2.base.session.zap_sent.length = 0 := by
  have hi : curve_process_initiate env w initiate = curve_fail w e := by
    unfold curve_process_initiate
    rw [he]
  refine ⟨?_, ?_, hi, ?_, ?_, ?_⟩
  · rw [curve_process_hello_zap_sent, hz]
    rfl
  · rcases curve_process_hello_failure env w hello with h | h | h
    · left; rw [h]
    · right; left; rw [h]; rfl
    · right; right; rw [h]; rfl
  · rw [hi]; rfl
  · rw [hi]; rfl
  · rw [hi]
    show w.base.session.zap_sent.length = 0
    rw [hz]
    rfl

set_option maxRecDepth 100000 in
/-- Witness of C24: a PLAIN HELLO sent to the CURVE server, and an INITIATE
whose cookie does not open. -/
theorem curve_no_zap_request_on_failure_witness :
    (curve_process_hello curve_env_t.sample (curve_world.new (session_base_t.new 0 []))
        (hello_command [0x61] [0x62])).2.base.session.zap_sent.length = 0
      ∧ curve_process_initiate curve_env_t.sample (curve_world.new (session_base_t.new 0 []))
          ⟨[0x08, 0x49, 0x4E, 0x49, 0x54, 0x49, 0x41, 0x54, 0x45, 1] ++ List.replicate 247 0⟩
        = curve_fail (curve_world.new (session_base_t.new 0 []))
            handshake_failure_t.HANDSHAKE_FAILED_ENCRYPTION
      ∧ (curve_process_initiate curve_env_t.sample (curve_world.new (session_base_t.new 0 []))
          ⟨[0x08, 0x49, 0x4E, 0x49, 0x54, 0x49, 0x41, 0x54, 0x45, 1] ++ List.replicate 247 0⟩
        ).2.base.session.zap_sent.length = 0 :=
  have h := curve_no_zap_request_on_failure curve_env_t.sample
    (curve_world.new (session_base_t.new 0 [])) (hello_command [0x61] [0x62])
    ⟨[0x08, 0x49, 0x4E, 0x49, 0x54, 0x49, 0x41, 0x54, 0x45, 1] ++ List.replicate 247 0⟩
    handshake_failure_t.HANDSHAKE_FAILED_ENCRYPTION (by decide) (by rfl)
  ⟨h.1, h.2.2.1, h.2.2.2.2.2⟩

theorem take_set_of_le (l : List Byte) (n i : Nat) (b : Byte) (h : n ≤ i) :
    (l.set i b).take n = l.take n := by
  rw [List.set_take]
  apply List.set_eq_of_length_le
  rw [List.length_take]
  omega

theorem curve_initiate_open_set (env : curve_env_t) (msg_ : msg_t) (i : Nat) (b : Byte)
    (hi : 9 ≤ i)
    (h : curve_initiate_open env msg_
      ≠ Except.error handshake_failure_t.HANDSHAKE_FAILED_ZMTP) :
    curve_initiate_open env ⟨msg_.data.set i b⟩
      ≠ Except.error handshake_failure_t.HANDSHAKE_FAILED_ZMTP := by
  unfold curve_initiate_open at h ⊢
  have hsize : (msg_t.mk (msg_.data.set i b)).size = msg_.size := by
    simp [msg_t.size]
  by_cases h1 : msg_.size < 9 ∨ memcmp msg_.data INITIATE_literal 9 ≠ 0
  · rw [if_pos h1] at h
    exact absurd rfl h
  · rw [if_neg h1] at h
    have h9 : 9 ≤ msg_.data.length := by
      have := not_or.mp h1
      simp only [msg_t.size] at this
      omega
    have h1b : ¬ ((msg_t.mk (msg_.data.set i b)).size < 9
        ∨ memcmp (msg_t.mk (msg_.data.set i b)).data INITIATE_literal 9 ≠ 0) := by
      rw [hsize]
      have hm := (not_or.mp h1).2
      rw [not_not, memcmp_INITIATE_iff _ h9] at hm
      rw [not_or, not_not, memcmp_INITIATE_iff _ (by simpa using h9), take_set_of_le _ _ _ _ hi]
      exact ⟨(not_or.mp h1).1, hm⟩
    rw [if_neg h1b, hsize]
    by_cases h2 : msg_.size < env.initiate_min_size ∨ msg_.size < 9 + 96
    · rw [if_pos h2] at h
      exact absurd rfl h
    · rw [if_neg h2]
      split
      · intro hc; cases hc
      · split
        · intro hc; cases hc
        · intro hc; cases hc

/-! ## The byte order of `htonll` -/

theorem bytes_le_length (n x : Nat) : (bytes_le n x).length = n := by
  induction n generalizing x with
  | zero => rfl
  | succ n ih => simp [bytes_le, ih]

theorem of_bytes_le_lt (bs : List Byte) : of_bytes_le bs < 256 ^ bs.length := by
  induction bs with
  | nil => simp [of_bytes_le]
  | cons b bs ih =>
    have hb := b.isLt
    simp only [of_bytes_le, List.length_cons, pow_succ]
    omega

theorem of_bytes_le_bytes_le (n x : Nat) : of_bytes_le (bytes_le n x) = x % 256 ^ n := by
  induction n generalizing x with
  | zero => simp [bytes_le, of_bytes_le, Nat.mod_one]
  | succ n ih =>
    simp only [bytes_le, of_bytes_le, ih, pow_succ]
    show x % 256 + 256 * (x / 256 % 256 ^ n) = x % (256 ^ n * 256)
    rw [Nat.mul_comm (256 ^ n) 256, Nat.mod_mul]

theorem bytes_le_of_bytes_le (bs : List Byte) : bytes_le bs.length (of_bytes_le bs) = bs := by
  induction bs with
  | nil => rfl
  | cons b bs ih =>
    have hb := b.isLt
    simp only [List.length_cons, bytes_le, of_bytes_le]
    have h1 : byte_of_nat (b.val + 256 * of_bytes_le bs) = b := by
      apply Fin.ext
      show (b.val + 256 * of_bytes_le bs) % 256 = b.val
      omega
    have h2 : (b.val + 256 * of_bytes_le bs) / 256 = of_bytes_le bs := by omega
    rw [h1, h2, ih]

theorem of_bytes_le_append (a b : List Byte) :
    of_bytes_le (a ++ b) = of_bytes_le a + 256 ^ a.length * of_bytes_le b := by
  induction a with
  | nil => simp [of_bytes_le]
  | cons x a ih =>
    show x.val + 256 * of_bytes_le (a ++ b)
      = (x.val + 256 * of_bytes_le a) + 256 ^ (a.length + 1) * of_bytes_le b
    rw [ih, pow_succ]
    ring

theorem bytes_le_add (m n x : Nat) :
    bytes_le (m + n) x = bytes_le m x ++ bytes_le n (x / 256 ^ m) := by
  induction m generalizing x with
  | zero => simp [bytes_le]
  | succ m ih =>
    rw [Nat.add_right_comm]
    simp only [bytes_le, List.cons_append, ih, pow_succ, Nat.div_div_eq_div_mul]
    rw [Nat.mul_comm 256 (256 ^ m)]

theorem bytes_le_mod (n x : Nat) : bytes_le n (x % 256 ^ n) = bytes_le n x := by
  have h := bytes_le_of_bytes_le (bytes_le n x)
  rw [bytes_le_length, of_bytes_le_bytes_le] at h
  exact h

theorem htonll_little_endian_eq (value : Nat) :
    htonll true value = of_bytes_le (bytes_le 8 value).reverse := by
  have hand : value &&& 0xFFFFFFFF = value % 2 ^ 32 :=
    Nat.and_pow_two_sub_one_eq_mod value 32
  have hor : ∀ a b : Nat, b < 2 ^ 32 → (a * 2 ^ 32) ||| b = a * 2 ^ 32 + b := by
    intro a b hb
    rw [Nat.mul_comm, ← Nat.mul_add_lt_is_or hb]
  have hlt : ∀ x : Nat, of_bytes_le (bytes_le 4 x).reverse < 2 ^ 32 := by
    intro x
    have := of_bytes_le_lt (bytes_le 4 x).reverse
    rw [List.length_reverse, bytes_le_length] at this
    exact this
  have hmod : ∀ x : Nat, bytes_le 4 (x % 2 ^ 32) = bytes_le 4 x := bytes_le_mod 4
  have hhead : ((bytes_le 4 42).headD 0).val = 42 := by decide
  have h8 : bytes_le 8 value = bytes_le 4 value ++ bytes_le 4 (value / 2 ^ 32) :=
    bytes_le_add 4 4 value
  unfold htonll
  simp only [htonl, to_memory, from_memory, Bool.false_eq_true, if_false, if_true, hhead,
    Nat.shiftRight_eq_div_pow, Nat.shiftLeft_eq, hand, hmod, Nat.mod_mod]
  have hl := hlt value
  have hh := hlt (value / 2 ^ 32)
  rw [Nat.mod_eq_of_lt (by omega), hor _ _ hh, h8, List.reverse_append, of_bytes_le_append,
    List.length_reverse, bytes_le_length]
  ring

theorem htonll_big_endian_eq (value : Nat) : htonll false value = value := by
  have hhead : ¬ ((to_memory false 4 42).headD 0).val = 42 := by decide
  unfold htonll
  simp only [hhead, if_false]

/-- C31: on a little-endian host `htonll` returns, for every 64-bit value, the
value whose 8 bytes are those of the argument in reversed order, and applying
it twice gives the argument back; on a big-endian host it returns the argument
unchanged; on either host the result is a 64-bit value whose object
representation, lowest address first, is the argument's 8 bytes with the most
significant first. -/
theorem htonll_byte_order (little_endian : Bool) (value : Nat) (h : value < 2 ^ 64) :
    htonll true value = of_bytes_le (bytes_le 8 value).reverse
      ∧ htonll true (htonll true value) = value
      ∧ htonll false value = value
      ∧ htonll little_endian value < 2 ^ 64
      ∧ to_memory little_endian 8 (htonll little_endian value) = (bytes_le 8 value).reverse := by
  have hlen : (bytes_le 8 value).reverse.length = 8 := by
    rw [List.length_reverse, bytes_le_length]
  have hlt : of_bytes_le (bytes_le 8 value).reverse < 2 ^ 64 := by
    have h1 := of_bytes_le_lt (bytes_le 8 value).reverse
    rw [hlen] at h1
    exact h1
  have hback : bytes_le 8 (of_bytes_le (bytes_le 8 value).reverse)
      = (bytes_le 8 value).reverse := by
    have h1 := bytes_le_of_bytes_le (bytes_le 8 value).reverse
    rw [hlen] at h1
    exact h1
  have hval : of_bytes_le (bytes_le 8 value) = value := by
    rw [of_bytes_le_bytes_le]
    exact Nat.mod_eq_of_lt h
  refine ⟨htonll_little_endian_eq value, ?_, htonll_big_endian_eq value, ?_, ?_⟩
  · rw [htonll_little_endian_eq value, htonll_little_endian_eq, hback, List.reverse_reverse,
      hval]
  · cases little_endian
    · rw [htonll_big_endian_eq]
      exact h
    · rw [htonll_little_endian_eq]
      exact hlt
  · cases little_endian
    · rw [htonll_big_endian_eq]
      rfl
    · rw [htonll_little_endian_eq]
      simp only [to_memory, if_true]
      exact hback

/-- Witness of C31: the value `0x0102030405060708` on a little-endian host. -/
theorem htonll_byte_order_witness :
    (0x0102030405060708 : Nat) < 2 ^ 64
      ∧ htonll true 0x0102030405060708 = 0x0807060504030201
      ∧ htonll true (htonll true 0x0102030405060708) = 0x0102030405060708
      ∧ htonll false 0x0102030405060708 = 0x0102030405060708
      ∧ to_memory true 8 (htonll true 0x0102030405060708) = [1, 2, 3, 4, 5, 6, 7, 8] :=
  have h := htonll_byte_order true 0x0102030405060708 (by decide)
  ⟨by decide, h.1.trans (by decide), h.2.1, h.2.2.1, h.2.2.2.2.trans (by decide)⟩

/-! ## The mock ZAP authenticator -/

theorem c_string_c_str (s : List Byte) (h : (0 : Byte) ∉ s) : c_string (c_str s) = s := by
  induction s with
  | nil => rfl
  | cons b s ih =>
    have hb : b ≠ 0 := fun hb => h (by simp [hb])
    have hs : (0 : Byte) ∉ s := fun hs => h (List.mem_cons_of_mem _ hs)
    have ih2 := ih hs
    have hb2 : (b != 0) = true := by simpa using hb
    simp only [c_string, c_str] at ih2 ⊢
    rw [List.cons_append, List.takeWhile_cons, hb2]
    simp [ih2]

theorem c_string_append_nul (s : List Byte) : c_string (s ++ [0]) = c_string s := by
  induction s with
  | nil => rfl
  | cons b s ih =>
    simp only [c_string] at ih ⊢
    by_cases hb : b = 0
    · simp [List.takeWhile_cons, hb]
    · simp [List.takeWhile_cons, hb, ih]

theorem zap_handler_authentication_plain (env : zap_handler_env_t)
    (mechanism username password : List Byte) (rest : List (List Byte))
    (hm : streq mechanism PLAIN_literal = true)
    (hu : 0 < username.length ∧ username.length < 32)
    (hp : 0 < password.length ∧ password.length < 32) :
    zap_handler_authentication env mechanism (username :: password :: rest)
      = some (decide (c_string username = c_string test_plain_username)
          && decide (c_string password = c_string test_plain_password)) := by
  simp only [streq, decide_eq_true_eq] at hm
  have hc : ¬ c_string mechanism = c_string CURVE_literal := by
    rw [hm]
    decide
  have hcp : ¬ c_string CURVE_literal = c_string PLAIN_literal := by decide
  have hpc : ¬ c_string PLAIN_literal = c_string CURVE_literal := by decide
  simp only [zap_handler_authentication, streq, c_string_append_nul]
  simp [hc, hm, hcp, hpc, hu.1, hu.2, hp.1, hp.2, eq_comm]

theorem zap_handler_authentication_plain_some (env : zap_handler_env_t)
    (mechanism : List Byte) (credentials : List (List Byte)) (ok : Bool)
    (hm : streq mechanism PLAIN_literal = true)
    (h : zap_handler_authentication env mechanism credentials = some ok) :
    ∃ username password rest, credentials = username :: password :: rest
      ∧ (0 < username.length ∧ username.length < 32)
      ∧ (0 < password.length ∧ password.length < 32) := by
  simp only [streq, decide_eq_true_eq] at hm
  have hc : ¬ c_string mechanism = c_string CURVE_literal := by
    rw [hm]
    decide
  have hcp : ¬ c_string CURVE_literal = c_string PLAIN_literal := by decide
  have hpc : ¬ c_string PLAIN_literal = c_string CURVE_literal := by decide
  match credentials, h with
  | [], h => simp [zap_handler_authentication, streq, hc, hm, hcp, hpc] at h
  | [_], h => simp [zap_handler_authentication, streq, hc, hm, hcp, hpc] at h
  | username :: password :: rest, h =>
    refine ⟨username, password, rest, rfl, ?_⟩
    simp only [zap_handler_authentication, streq, decide_eq_true_eq, hc, hm, if_true, if_false] at h
    by_cases h1 : 0 < username.length
    · by_cases h2 : username.length < 32
      · by_cases h3 : 0 < password.length
        · by_cases h4 : password.length < 32
          · exact ⟨⟨h1, h2⟩, h3, h4⟩
          · simp [h1, h2, h3, h4, hcp, hpc] at h
        · simp [h1, h2, h3, hcp, hpc] at h
      · simp [h1, h2, hcp, hpc] at h
    · simp [h1, hcp, hpc] at h

theorem zap_handler_generic_some (env : zap_handler_env_t) (zap_protocol : zap_protocol_t)
    (expected_identity : List Byte) (request : zap_request_t) (ok : Bool)
    (hauth : zap_handler_authentication env (c_str request.mechanism) request.credentials
      = some ok)
    (hver : streq (c_str request.version) version_1_0_literal = true)
    (hident : streq (c_str request.identity) expected_identity = true) :
    zap_handler_generic env zap_protocol expected_identity request
      = some ([c_string (if zap_protocol = zap_protocol_t.zap_wrong_version
            then invalid_version_literal else c_str request.version),
          c_string (if zap_protocol = zap_protocol_t.zap_wrong_request_id
            then invalid_request_id_literal else c_str request.request_id)]
        ++ (if ok then
            [c_string (match zap_protocol with
              | zap_protocol_t.zap_status_internal_error => status_500_literal
              | zap_protocol_t.zap_status_temporary_failure => status_300_literal
              | zap_protocol_t.zap_status_invalid => invalid_status_literal
              | _ => status_200_literal),
              c_string OK_literal, c_string anonymous_literal]
            ++ (if zap_protocol = zap_protocol_t.zap_too_many_parts
              then [c_string empty_literal] else [])
            ++ [c_string empty_literal]
          else [c_string status_400_literal, c_string invalid_client_public_key_literal,
            c_string empty_literal, c_string empty_literal])) := by
  simp only [zap_handler_generic, hauth, hver, hident, not_true_eq_false, if_false]
  cases ok <;> cases zap_protocol <;> rfl

/-- Counterexample to C32 as stated, mechanism `"PLAIN"`, mode `zap_ok`: the
username frame `"testuser\0x"` (ten bytes, not the eight of `"testuser"`) with
the password `"testpass"` is answered with status `"200"`, not `"400"`; and on
an empty username frame, which does not match either, `assert (size > 0)`
stops the handler and no reply is sent. -/
theorem zap_handler_generic_mismatch_not_400 :
    zap_handler_generic zap_handler_env_t.sample zap_protocol_t.zap_ok IDENT_literal
        (zap_request_t.plain [0x74, 0x65, 0x73, 0x74, 0x75, 0x73, 0x65, 0x72, 0x00, 0x78]
          [0x74, 0x65, 0x73, 0x74, 0x70, 0x61, 0x73, 0x73])
        = some [[0x31, 0x2E, 0x30], [0x31], c_string status_200_literal, c_string OK_literal,
            c_string anonymous_literal, []]
      ∧ ([0x74, 0x65, 0x73, 0x74, 0x75, 0x73, 0x65, 0x72, 0x00, 0x78] : List Byte)
          ≠ [0x74, 0x65, 0x73, 0x74, 0x75, 0x73, 0x65, 0x72]
      ∧ c_string status_200_literal ≠ c_string status_400_literal
      ∧ zap_handler_generic zap_handler_env_t.sample zap_protocol_t.zap_ok IDENT_literal
          (zap_request_t.plain [] [0x74, 0x65, 0x73, 0x74, 0x70, 0x61, 0x73, 0x73]) = none := by
  decide

/-- C32 (amended): on a request that passes the handler's assertions (version
`"1.0"`, the expected identity, and credentials for which
`authentication_succeeded` gets the value `ok`) the handler replies, and the
status frame of the reply is `"200"` exactly when `ok` holds and the mode is
none of `zap_status_internal_error`, `zap_status_temporary_failure`,
`zap_status_invalid`; when `ok` does not hold the status frame is `"400"`
whatever the mode; the request id string comes back unchanged unless the mode
is `zap_wrong_request_id`, in which case `"invalid_request_id"` is sent. For
the mechanism `"PLAIN"` the request then has a username and a password frame
of 1 to 31 bytes each, and `ok` holds exactly when these two, read as C
strings, are `"testuser"` and `"testpass"`. -/
theorem zap_handler_generic_reply (env : zap_handler_env_t) (zap_protocol : zap_protocol_t)
    (expected_identity : List Byte) (request : zap_request_t) (ok : Bool)
    (hauth : zap_handler_authentication env (c_str request.mechanism) request.credentials
      = some ok)
    (hver : streq (c_str request.version) version_1_0_literal = true)
    (hident : streq (c_str request.identity) expected_identity = true)
    (hid : (0 : Byte) ∉ request.request_id) :
    ∃ frames, zap_handler_generic env zap_protocol expected_identity request = some frames
      ∧ (frames.get? 2 = some (c_string status_200_literal) ↔
          ok = true ∧ zap_protocol ≠ zap_protocol_t.zap_status_internal_error
            ∧ zap_protocol ≠ zap_protocol_t.zap_status_temporary_failure
            ∧ zap_protocol ≠ zap_protocol_t.zap_status_invalid)
      ∧ (ok = false → frames.get? 2 = some (c_string status_400_literal))
      ∧ (zap_protocol ≠ zap_protocol_t.zap_wrong_request_id →
          frames.get? 1 = some request.request_id)
      ∧ (zap_protocol = zap_protocol_t.zap_wrong_request_id →
          frames.get? 1 = some (c_string invalid_request_id_literal))
      ∧ (streq (c_str request.mechanism) PLAIN_literal = true →
          ∃ username password rest, request.credentials = username :: password :: rest
            ∧ (0 < username.length ∧ username.length < 32)
            ∧ (0 < password.length ∧ password.length < 32)
            ∧ (ok = true ↔ c_string username = c_string test_plain_username
                ∧ c_string password = c_string test_plain_password)) := by
  refine ⟨_, zap_handler_generic_some env zap_protocol expected_identity request ok hauth
    hver hident, ?_, ?_, ?_, ?_, ?_⟩
  · cases ok <;> cases zap_protocol <;> simp <;> decide
  · intro hok
    subst hok
    rfl
  · intro hne
    simp [hne, c_string_c_str _ hid]
  · intro he
    simp [he]
  · intro hm
    obtain ⟨username, password, rest, hc, hu, hp⟩ :=
      zap_handler_authentication_plain_some env _ _ ok hm hauth
    refine ⟨username, password, rest, hc, hu, hp, ?_⟩
    rw [hc, zap_handler_authentication_plain env _ username password rest hm hu hp] at hauth
    have hok := Option.some.inj hauth
    rw [← hok]
    simp

/-- Witness of C32 (amended): the request of user `"testuser"` with password
`"testpass"` in mode `zap_ok` gets `"200"` and its request id `"1"` back; the
request of user `"testuser"` with password `"testuser"` in mode
`zap_status_internal_error` gets `"400"`. -/
theorem zap_handler_generic_reply_witness :
    zap_handler_authentication zap_handler_env_t.sample
        (c_str (zap_request_t.plain (c_string test_plain_username)
          (c_string test_plain_password)).mechanism)
        (zap_request_t.plain (c_string test_plain_username)
          (c_string test_plain_password)).credentials = some true
      ∧ ((zap_handler_generic zap_handler_env_t.sample zap_protocol_t.zap_ok IDENT_literal
          (zap_request_t.plain (c_string test_plain_username)
            (c_string test_plain_password))).getD []).get? 2
          = some (c_string status_200_literal)
      ∧ ((zap_handler_generic zap_handler_env_t.sample zap_protocol_t.zap_ok IDENT_literal
          (zap_request_t.plain (c_string test_plain_username)
            (c_string test_plain_password))).getD []).get? 1 = some [0x31]
      ∧ ((zap_handler_generic zap_handler_env_t.sample
          zap_protocol_t.zap_status_internal_error IDENT_literal
          (zap_request_t.plain (c_string test_plain_username)
            (c_string test_plain_username))).getD []).get? 2
          = some (c_string status_400_literal) := by
  obtain ⟨frames, h, h200, _, hecho, _, _⟩ :=
    zap_handler_generic_reply zap_handler_env_t.sample zap_protocol_t.zap_ok IDENT_literal
      (zap_request_t.plain (c_string test_plain_username) (c_string test_plain_password))
      true (by decide) (by decide) (by decide) (by decide)
  obtain ⟨frames2, h2, _, h400, _, _, _⟩ :=
    zap_handler_generic_reply zap_handler_env_t.sample
      zap_protocol_t.zap_status_internal_error IDENT_literal
      (zap_request_t.plain (c_string test_plain_username) (c_string test_plain_username))
      false (by decide) (by decide) (by decide) (by decide)
  refine ⟨by decide, ?_, ?_, ?_⟩
  · rw [h]
    exact h200.mpr ⟨rfl, by decide, by decide, by decide⟩
  · rw [h]
    exact hecho (by decide)
  · rw [h2]
    exact h400 rfl

end zmq
